import Mathlib

set_option maxRecDepth 8000

/-!
Shallow embedding of the wikimedia operations-software-netbox-reports
repository: the custom script customscripts/interface_automation.py and the
report modules under reports/, together with theorems about the claims on
their behaviour.  NetBox host constants (dcim.constants and friends) are
reproduced with their NetBox 2.x integer values; Django query-set
operations are embedded as list filters over explicit state records.
-/

/-- Log severity levels of the host Report/Script logging API. -/
inductive LogLevel where
  | success
  | info
  | warning
  | failure
deriving DecidableEq

/-- One log entry: its level, the object it is logged against (by name;
none for the summary lines logged against None) and the message. -/
structure LogEntry where
  level : LogLevel
  obj : Option String
  message : String
deriving DecidableEq

/-- dcim.constants.DEVICE_STATUS_OFFLINE (NetBox 2.x value). -/
def DEVICE_STATUS_OFFLINE : Nat := 0

/-- dcim.constants.DEVICE_STATUS_ACTIVE. -/
def DEVICE_STATUS_ACTIVE : Nat := 1

/-- dcim.constants.DEVICE_STATUS_PLANNED. -/
def DEVICE_STATUS_PLANNED : Nat := 2

/-- dcim.constants.DEVICE_STATUS_STAGED. -/
def DEVICE_STATUS_STAGED : Nat := 3

/-- dcim.constants.DEVICE_STATUS_FAILED. -/
def DEVICE_STATUS_FAILED : Nat := 4

/-- dcim.constants.DEVICE_STATUS_INVENTORY. -/
def DEVICE_STATUS_INVENTORY : Nat := 5

/-- dcim.constants.DEVICE_STATUS_DECOMMISSIONING. -/
def DEVICE_STATUS_DECOMMISSIONING : Nat := 6

/-- dcim.constants.IFACE_TYPE_1GE_FIXED (the 1000BASE-T fixed interface type). -/
def IFACE_TYPE_1GE_FIXED : Nat := 1000

/-- ipam.constants.IPADDRESS_STATUS_ACTIVE. -/
def IPADDRESS_STATUS_ACTIVE : Nat := 1

/-- dcim.constants.CONNECTION_STATUS_CONNECTED (a boolean in NetBox 2.x). -/
def CONNECTION_STATUS_CONNECTED : Bool := true

/-- Device.get_status_display: the label of DEVICE_STATUS_CHOICES. -/
def statusLabel (s : Nat) : String :=
  if s = 0 then "Offline"
  else if s = 1 then "Active"
  else if s = 2 then "Planned"
  else if s = 3 then "Staged"
  else if s = 4 then "Failed"
  else if s = 5 then "Inventory"
  else if s = 6 then "Decommissioning"
  else ""

/-- An IPv4 network as python ipaddress.ip_network holds it: the (already
masked) network address as a Nat below 2^32 and the mask length. -/
structure IPNet where
  base : Nat
  maskLen : Nat
deriving DecidableEq

/-- The number of addresses the network spans. -/
def IPNet.size (n : IPNet) : Nat := 2 ^ (32 - n.maskLen)

/-- Python `address in network`: network address up to broadcast address. -/
def IPNet.memB (n : IPNet) (a : Nat) : Bool :=
  decide (n.base ≤ a ∧ a < n.base + n.size)

/-- Dotted-quad rendering of an IPv4 address held as a Nat. -/
def ipQuad (a : Nat) : String :=
  toString (a / 2 ^ 24 % 256) ++ "." ++ toString (a / 2 ^ 16 % 256) ++ "." ++
    toString (a / 2 ^ 8 % 256) ++ "." ++ toString (a % 256)

/-- str() of an ipaddress network: address slash mask length. -/
def IPNet.str (n : IPNet) : String := ipQuad n.base ++ "/" ++ toString n.maskLen

/-- The first element of python `ip_network(...).subnets(new_prefix=24)`: the
/24 at the network's own base address.  none models the ValueError that
subnets() raises when the network's own mask is longer than 24 bits. -/
def IPNet.zeroth24 (n : IPNet) : Option IPNet :=
  if n.maskLen ≤ 24 then some ⟨n.base, 24⟩ else none

/-- A NetBox tenant, reduced to the field the code reads: its slug. -/
structure Tenant where
  slug : String
deriving DecidableEq

/-- A typed custom-field value (the host's custom-field subsystem types each
field; purchase_date is a date field, ticket a text field).  Dates are held
as day numbers. -/
inductive CFVal where
  | str (s : String)
  | date (days : Int)
deriving DecidableEq

/-- One CustomFieldValue row: its pk, the field's name and the value. -/
structure CFV where
  pk : Nat
  fieldName : String
  value : CFVal
deriving DecidableEq

/-- A NetBox Device row, reduced to the fields the repository reads. -/
structure Device where
  pk : Nat
  name : String
  serial : Option String
  assetTag : Option String
  status : Nat
  roleSlug : String
  siteSlug : String
  sitePhysicalAddress : String
  tenant : Option Tenant
  rack : Option String
  manufacturerSlug : String
  manufacturerName : String
  deviceTypeSlug : String
  model : String
  customFields : List CFV
deriving DecidableEq

/-- reports/coherence.py cf(), monkey-patched as Device.mpcf: the value of the
first custom-field value whose field has the given name, none otherwise. -/
def Device.mpcf (d : Device) (field : String) : Option CFVal :=
  (d.customFields.find? (fun c => c.fieldName == field)).map (fun c => c.value)

/-- The device's purchase_date custom field as a date.  The host's custom
field subsystem types this field as a date, so a non-date value cannot be
stored for it. -/
def Device.purchaseDate (d : Device) : Option Int :=
  match d.mpcf "purchase_date" with
  | some (.date v) => some v
  | _ => none

/-- An ipam Prefix row: site, role slug, tenant, the network, address family
and the pk of its VRF when it has one. -/
structure PrefixRec where
  siteSlug : String
  roleSlug : String
  tenant : Option Tenant
  net : IPNet
  family : Nat
  vrfPk : Option Nat
deriving DecidableEq

/-- A dcim Interface row, reduced to the fields the custom script writes. -/
structure InterfaceRec where
  name : String
  deviceName : String
  mgmtOnly : Bool
  typ : Nat
deriving DecidableEq

/-- An ipam IPAddress row as the custom script builds it. -/
structure IPAddressRec where
  address : Nat
  maskLen : Nat
  status : Nat
  family : Nat
  vrf : Option Nat
  iface : Option InterfaceRec
  tenant : Option Tenant
deriving DecidableEq

/-- The slice of NetBox state the custom script reads and writes. -/
structure ScriptState where
  prefixes : List PrefixRec
  interfaces : List InterfaceRec
  ipaddresses : List IPAddressRec
  logs : List LogEntry
deriving DecidableEq

/-- The exceptions the embedded code can raise or catch. -/
inductive PyErr where
  | objectDoesNotExist
  | multipleObjectsReturned
  | valueError
deriving DecidableEq

/-- Append one log entry to the script state. -/
def ScriptState.addLog (s : ScriptState) (lv : LogLevel) (obj : Option String)
    (msg : String) : ScriptState :=
  { s with logs := s.logs ++ [⟨lv, obj, msg⟩] }

/-- Django Prefix.objects.get(site=..., role__slug="management", tenant=...):
the unique matching row, ObjectDoesNotExist on none, MultipleObjectsReturned
on more than one. -/
def prefixGet (ps : List PrefixRec) (site : String) (tenant : Option Tenant) :
    Except PyErr PrefixRec :=
  match ps.filter (fun p =>
      p.siteSlug == site && p.roleSlug == "management" && p.tenant == tenant) with
  | [] => .error .objectDoesNotExist
  | [p] => .ok p
  | _ :: _ :: _ => .error .multipleObjectsReturned

/-- interface_automation.py line 37: `device.tenant and device.tenant.slug ==
'fr-tech'`. -/
def isFrTech (d : Device) : Bool :=
  match d.tenant with
  | none => false
  | some t => t.slug == "fr-tech"

/-- interface_automation.py lines 36-41: no zeroth net on frack, otherwise
the first /24 subnet of the prefix (ValueError when the prefix is longer
than /24). -/
def zerothNetFor (device : Device) (p : PrefixRec) : Except PyErr (Option IPNet) :=
  if isFrTech device then .ok none
  else
    match p.net.zeroth24 with
    | some z => .ok (some z)
    | none => .error .valueError

/-- interface_automation.py lines 43-49: walk the available addresses and
keep the first one that is outside the zeroth net (every address when there
is no zeroth net); none when the loop exhausts the addresses. -/
def selectIp (zerothNet : Option IPNet) (ips : List Nat) : Option Nat :=
  match ips with
  | [] => none
  | ip :: rest =>
    match zerothNet with
    | none => some ip
    | some z => if z.memB ip then selectIp (some z) rest else some ip

/-- The IPAddress row as first saved (lines 53-59): address, status and
family only. -/
def newIpInitial (p : PrefixRec) (ip : Nat) : IPAddressRec :=
  { address := ip, maskLen := p.net.maskLen, status := IPADDRESS_STATUS_ACTIVE,
    family := p.family, vrf := none, iface := none, tenant := none }

/-- The IPAddress row after the second save (lines 60-64): vrf, interface and
tenant filled in. -/
def newIpFinal (device : Device) (iface : InterfaceRec) (p : PrefixRec) (ip : Nat) :
    IPAddressRec :=
  { newIpInitial p ip with vrf := p.vrfPk, iface := some iface, tenant := device.tenant }

/-- CreateManagementInterface._add_ip_to_interface.  `available` is the
host's Prefix.get_available_ips(), an oracle over the current state.  The
result is the python return value (or the exception that escapes) together
with the state after the call; the two saves of lines 59 and 64 write the
same new row, appended once and then updated in place. -/
def addIpToInterface (available : ScriptState → PrefixRec → List Nat)
    (device : Device) (iface : InterfaceRec) (s : ScriptState) :
    Except PyErr String × ScriptState :=
  match prefixGet s.prefixes device.siteSlug device.tenant with
  | .error .objectDoesNotExist =>
    let message :=
      "Can\x27t find prefix for site " ++ device.siteSlug ++ " on device " ++ device.name
    (.ok message, s.addLog .failure none message)
  | .error e => (.error e, s)
  | .ok p =>
    let s1 := s.addLog .info none ("Selecting address from network " ++ p.net.str)
    match zerothNetFor device p with
    | .error e => (.error e, s1)
    | .ok zn =>
      match selectIp zn (available s p) with
      | some ip =>
        let s2 := { s1 with ipaddresses := s1.ipaddresses ++ [newIpInitial p ip] }
        let s3 := { s2 with ipaddresses :=
          s2.ipaddresses.dropLast ++ [newIpFinal device iface p ip] }
        let message :=
          "Created ip " ++ ipQuad ip ++ "/" ++ toString p.net.maskLen ++
            " for mgmt on device " ++ device.name
        (.ok message, s3.addLog .success none message)
      | none =>
        let message := "Not enough IPs to allocate one on prefix " ++ p.net.str
        (.ok message, s1.addLog .failure none message)

/-- Django device.interfaces.get(name=...): the unique interface of the
device with that name. -/
def interfacesGet (s : ScriptState) (device : Device) (name : String) :
    Except PyErr InterfaceRec :=
  match s.interfaces.filter (fun i => i.deviceName == device.name && i.name == name) with
  | [] => .error .objectDoesNotExist
  | [i] => .ok i
  | _ :: _ :: _ => .error .multipleObjectsReturned

/-- CreateManagementInterface.run (lines 75-93). -/
def createManagementInterfaceRun (available : ScriptState → PrefixRec → List Nat)
    (device : Device) (addIp : Bool) (s : ScriptState) :
    Except PyErr String × ScriptState :=
  match interfacesGet s device "mgmt" with
  | .error .objectDoesNotExist =>
    let mgmt : InterfaceRec :=
      { name := "mgmt", deviceName := device.name, mgmtOnly := true,
        typ := IFACE_TYPE_1GE_FIXED }
    let s1 := { s with interfaces := s.interfaces ++ [mgmt] }
    if addIp then addIpToInterface available device mgmt s1
    else
      let message := "Created mgmt on device " ++ device.name
      (.ok message, s1.addLog .success none message)
  | .error e => (.error e, s)
  | .ok mgmt =>
    let s1 := s.addLog .info none ("mgmt already exists for device " ++ device.name)
    if addIp then addIpToInterface available device mgmt s1
    else
      let message := "Created mgmt on device " ++ device.name
      (.ok message, s1.addLog .success none message)

/-- The interfaces named mgmt that a device has in a state. -/
def mgmtCount (s : ScriptState) (device : Device) : Nat :=
  (s.interfaces.filter (fun i => i.deviceName == device.name && i.name == "mgmt")).length

/-- Running the script and keeping the state only. -/
def runState (available : ScriptState → PrefixRec → List Nat) (device : Device)
    (addIp : Bool) (s : ScriptState) : ScriptState :=
  (createManagementInterfaceRun available device addIp s).2

/-- Whether `pre` is a leading segment of `cs`; on success the remainder. -/
def dropExact : List Char → List Char → Option (List Char)
  | cs, [] => some cs
  | [], _ :: _ => none
  | c :: cs, p :: ps => if c == p then dropExact cs ps else none

/-- Whether `needle` occurs contiguously in `hay` (python `needle in hay`
on the character lists; the empty needle occurs in everything). -/
def listHasSub : List Char → List Char → Bool
  | hay, needle =>
    (dropExact hay needle).isSome ||
      match hay with
      | [] => false
      | _ :: t => listHasSub t needle

/-- Python `needle in hay` over strings. -/
def strIn (needle hay : String) : Bool := listHasSub hay.data needle.data

/-- All characters are ASCII digits. -/
def digitsOnly (cs : List Char) : Bool := cs.all Char.isDigit

/-- One or more digits at the front, consumed greedily; on success the
remainder after the digit run. -/
def eatDigits1 : List Char → Option (List Char)
  | c :: rest => if c.isDigit then some (rest.dropWhile Char.isDigit) else none
  | [] => none

/-- The first character exists and is a digit. -/
def headDigit : List Char → Bool
  | c :: _ => c.isDigit
  | [] => false

/-- re.match of `pre` followed by a digit, at the start of the string. -/
def preThenDigit (s : String) (pre : String) : Bool :=
  match dropExact s.data pre.data with
  | some r => headDigit r
  | none => false

/-- coherence.py ASSET_TAG_RE.fullmatch: exactly WMF and four digits. -/
def assetTagMatch (s : String) : Bool :=
  match s.data with
  | ['W', 'M', 'F', a, b, c, d] => a.isDigit && b.isDigit && c.isDigit && d.isDigit
  | _ => false

/-- coherence.py TICKET_RE.fullmatch: RT (hash and at least two digits) or
T and at least five digits. -/
def ticketMatch (s : String) : Bool :=
  match s.data with
  | 'R' :: 'T' :: ' ' :: '#' :: rest => decide (2 ≤ rest.length) && digitsOnly rest
  | 'T' :: rest => decide (5 ≤ rest.length) && digitsOnly rest
  | _ => false

/-- cables.py console port name regex, used with re.match (anchored at the
start only). -/
def consolePortNameMatch (s : String) : Bool :=
  preThenDigit s "console" || preThenDigit s "console-re" || preThenDigit s "serial"

/-- cables.py console server port name regex. -/
def consoleServerPortNameMatch (s : String) : Bool := preThenDigit s "port"

/-- cables.py power port name regex. -/
def powerPortNameMatch (s : String) : Bool :=
  preThenDigit s "PSU" || preThenDigit s "PEM " || preThenDigit s "Power Supply "

/-- cables.py power outlet name regex: a digit at the start. -/
def powerOutletNameMatch (s : String) : Bool := headDigit s.data

/-- The optional dot-digits tail of the interface regexes, matched against
the full remainder of the name. -/
def optDotDigits : List Char → Bool
  | [] => true
  | '.' :: rest => !rest.isEmpty && digitsOnly rest
  | _ => false

/-- INTERFACES_REGEXP alternative 1: mgmt with an optional digit, ILO, or
DRAC with an optional leading i (each anchored on both sides). -/
def mgmtIloDracMatch (cs : List Char) : Bool :=
  (match dropExact cs "mgmt".data with
   | some [] => true
   | some [c] => c.isDigit
   | _ => false) ||
  cs == "ILO".data || cs == "DRAC".data || cs == "iDRAC".data

/-- INTERFACES_REGEXP alternative 2: fxp, digit, -re, digit. -/
def fxpMatch (cs : List Char) : Bool :=
  match cs with
  | ['f', 'x', 'p', a, '-', 'r', 'e', b] => a.isDigit && b.isDigit
  | _ => false

/-- INTERFACES_REGEXP alternative 3: lower-case letters, then three slashed
digit groups, then the optional dot-digits tail (Juniper names). -/
def juniperIfMatch (cs : List Char) : Bool :=
  decide (1 ≤ (cs.takeWhile Char.isLower).length) &&
  match cs.dropWhile Char.isLower with
  | '-' :: r1 =>
    (match eatDigits1 r1 with
     | some ('/' :: r2) =>
       (match eatDigits1 r2 with
        | some ('/' :: r3) =>
          (match eatDigits1 r3 with
           | some r4 => optDotDigits r4
           | none => false)
        | _ => false)
     | _ => false)
  | _ => false

/-- INTERFACES_REGEXP alternative 4: one to four lower-case letters, an
optional digit run and the optional dot-digits tail (eth0, vlan.900). -/
def typicalIfMatch (cs : List Char) : Bool :=
  let letters := (cs.takeWhile Char.isLower).length
  decide (1 ≤ letters) && decide (letters ≤ 4) &&
    optDotDigits ((cs.dropWhile Char.isLower).dropWhile Char.isDigit)

/-- The optional (d or np, digits) tail of the enp alternative. -/
def enpTail2 : List Char → Bool
  | [] => true
  | 'd' :: r =>
    (match eatDigits1 r with
     | some [] => true
     | _ => false)
  | 'n' :: 'p' :: r =>
    (match eatDigits1 r with
     | some [] => true
     | _ => false)
  | _ => false

/-- The optional (f, digits) group then the enpTail2 tail. -/
def enpTail1 : List Char → Bool
  | 'f' :: r =>
    (match eatDigits1 r with
     | some r2 => enpTail2 r2
     | none => false)
  | cs => enpTail2 cs

/-- INTERFACES_REGEXP alternative 5: systemd path devices enp... . -/
def enpMatch (cs : List Char) : Bool :=
  match dropExact cs "enp".data with
  | some r1 =>
    (match eatDigits1 r1 with
     | some ('s' :: r2) =>
       (match eatDigits1 r2 with
        | some r3 => enpTail1 r3
        | none => false)
     | _ => false)
  | none => false

/-- cables.py interface name regex: the joined INTERFACES_REGEXP
alternation (each alternative carries its own anchors). -/
def interfaceNameMatch (s : String) : Bool :=
  mgmtIloDracMatch s.data || fxpMatch s.data || juniperIfMatch s.data ||
    typicalIfMatch s.data || enpMatch s.data ||
    (!s.data.isEmpty && digitsOnly s.data)

/-- A dcim InventoryItem row, reduced to the fields the reports read (the
parent device's fields are inlined). -/
structure InventoryItem where
  name : String
  serial : Option String
  deviceName : String
  devicePk : Nat
  deviceStatus : Nat
  siteSlug : String
  manufacturerSlug : String
  partId : String
deriving DecidableEq

/-- A virtualization VirtualMachine row. -/
structure VirtualMachine where
  name : String
  status : Nat
deriving DecidableEq

/-- A cable termination row (ConsolePort, ConsoleServerPort, PowerPort,
PowerOutlet or Interface) with its parent device's fields inlined. -/
structure PortRec where
  name : String
  deviceName : String
  deviceStatus : Nat
  connectionStatus : Option Bool
  csPort : Option String
deriving DecidableEq

/-- A dcim Cable row, with the termination fields cables.py reads inlined:
the type name of termination a, its site slug when it is a circuit
termination, and the site slug of its device when it has one. -/
structure CableRec where
  pk : Nat
  label : Option String
  status : Bool
  termAType : String
  termASiteSlug : Option String
  termADeviceSiteSlug : Option String
  termAId : Option Nat
  termBId : Option Nat
deriving DecidableEq

/-- The slice of NetBox state the report modules read. -/
structure NetboxState where
  devices : List Device
  inventoryItems : List InventoryItem
  vms : List VirtualMachine
  cables : List CableRec
  consolePorts : List PortRec
  consoleServerPorts : List PortRec
  powerPorts : List PortRec
  powerOutlets : List PortRec
  interfaces : List PortRec
deriving DecidableEq

/-- Python str.lower() (the repository only lowercases ASCII vendor/model
and address strings). -/
def strLower (s : String) : String := ⟨s.data.map Char.toLower⟩

namespace Coherence

/-- coherence.py SITE_BLACKLIST. -/
def SITE_BLACKLIST : List String := ["esams", "knams"]

/-- coherence.py DEVICE_ROLE_BLACKLIST. -/
def DEVICE_ROLE_BLACKLIST : List String := ["cablemgmt", "storagebin", "optical-device"]

/-- coherence.py _get_devices_query: every device whose site is not
blacklisted (the cf variant only prefetches custom fields and does not
change the row set). -/
def getDevicesQuery (s : NetboxState) : List Device :=
  s.devices.filter (fun d => !SITE_BLACKLIST.contains d.siteSlug)

/-- One device of test_malformed_asset_tags: missing tag and malformed tag
are failures, a well-formed tag counts. -/
def assetTagStep (acc : Nat × List LogEntry) (device : Device) : Nat × List LogEntry :=
  match device.assetTag with
  | none => (acc.1, acc.2 ++ [⟨.failure, some device.name, "missing asset tag"⟩])
  | some tag =>
    if assetTagMatch tag then (acc.1 + 1, acc.2)
    else (acc.1, acc.2 ++ [⟨.failure, some device.name, "malformed asset tag: " ++ tag⟩])

/-- coherence.py test_malformed_asset_tags. -/
def test_malformed_asset_tags (s : NetboxState) : NetboxState × List LogEntry :=
  (s,
    let r := (getDevicesQuery s).foldl assetTagStep (0, [])
    r.2 ++ [⟨.success, none, toString r.1 ++ " correctly formatted asset tags"⟩])

/-- One device of test_purchase_date. -/
def purchaseDateStep (today : Int) (acc : Nat × List LogEntry) (device : Device) :
    Nat × List LogEntry :=
  match device.purchaseDate with
  | none => (acc.1, acc.2 ++ [⟨.failure, some device.name, "missing purchase date"⟩])
  | some pd =>
    if today < pd then
      (acc.1, acc.2 ++ [⟨.failure, some device.name, "purchase date is in the future"⟩])
    else (acc.1 + 1, acc.2)

/-- coherence.py test_purchase_date; `today` is datetime.today().date(). -/
def test_purchase_date (today : Int) (s : NetboxState) : NetboxState × List LogEntry :=
  (s,
    let r := (getDevicesQuery s).foldl (purchaseDateStep today) (0, [])
    r.2 ++ [⟨.success, none, toString r.1 ++ " present purchase dates"⟩])

/-- The serial values grouped by the duplicate-serials query, before the
count filter: devices off the role blacklist, not decommissioning or
offline, with a non-null non-empty serial. -/
def dupBase (s : NetboxState) : List Device :=
  (getDevicesQuery s).filter (fun d =>
    !DEVICE_ROLE_BLACKLIST.contains d.roleSlug &&
    !(d.status == DEVICE_STATUS_DECOMMISSIONING || d.status == DEVICE_STATUS_OFFLINE) &&
    !(d.serial == some "") && !(d.serial == none))

/-- The serial values that the annotate(count)/filter(count__gt=1) query
returns: each serial occurring more than once, listed once. -/
def dupSerials (s : NetboxState) : List String :=
  let serials := (dupBase s).filterMap (fun d => d.serial)
  serials.dedup.filter (fun x => decide (1 < serials.count x))

/-- coherence.py test_duplicate_serials. -/
def test_duplicate_serials (s : NetboxState) : NetboxState × List LogEntry :=
  (s,
    let dups := dupSerials s
    if dups.isEmpty then [⟨.success, none, "No duplicate serials found"⟩]
    else
      let targets := (getDevicesQuery s).filter (fun d =>
        !(d.status == DEVICE_STATUS_DECOMMISSIONING || d.status == DEVICE_STATUS_OFFLINE) &&
        (match d.serial with
         | some x => dups.contains x
         | none => false))
      (targets.mergeSort (fun a b => decide (a.serial.getD "" ≤ b.serial.getD ""))).map
        (fun d => ⟨.failure, some d.name, "duplicate serial: " ++ d.serial.getD ""⟩))

/-- One device of test_serials. -/
def serialStep (acc : Nat × List LogEntry) (device : Device) : Nat × List LogEntry :=
  if device.serial == none || device.serial == some "" then
    (acc.1, acc.2 ++ [⟨.failure, some device.name, "missing serial"⟩])
  else (acc.1 + 1, acc.2)

/-- coherence.py test_serials. -/
def test_serials (s : NetboxState) : NetboxState × List LogEntry :=
  (s,
    let r := ((getDevicesQuery s).filter (fun d =>
        !(d.status == DEVICE_STATUS_DECOMMISSIONING || d.status == DEVICE_STATUS_OFFLINE) &&
        !DEVICE_ROLE_BLACKLIST.contains d.roleSlug)).foldl serialStep (0, [])
    r.2 ++ [⟨.success, none, toString r.1 ++ " present serials"⟩])

/-- Python str() of the ticket custom-field value: the word None for a
missing field, the text of a text value. -/
def cfvStr : Option CFVal → String
  | none => "None"
  | some (.str v) => v
  | some (.date v) => toString v

/-- One device of test_ticket: the regex first, then the None check. -/
def ticketStep (acc : Nat × List LogEntry) (device : Device) : Nat × List LogEntry :=
  let ticket := cfvStr (device.mpcf "ticket")
  if ticketMatch ticket then (acc.1 + 1, acc.2)
  else
    match device.mpcf "ticket" with
    | none => (acc.1, acc.2 ++ [⟨.failure, some device.name, "missing procurement ticket"⟩])
    | some _ =>
      (acc.1, acc.2 ++ [⟨.failure, some device.name, "malformed procurement ticket: " ++ ticket⟩])

/-- coherence.py test_ticket. -/
def test_ticket (s : NetboxState) : NetboxState × List LogEntry :=
  (s,
    let r := (getDevicesQuery s).foldl ticketStep (0, [])
    r.2 ++ [⟨.success, none, toString r.1 ++ " correctly formatted procurement tickets"⟩])

/-- The query set of test_offline_rack: offline devices assigned a rack. -/
def offlineRackSet (s : NetboxState) : List Device :=
  (getDevicesQuery s).filter (fun d => d.status == DEVICE_STATUS_OFFLINE && d.rack.isSome)

/-- coherence.py test_offline_rack: one failure per device of the set. -/
def test_offline_rack (s : NetboxState) : NetboxState × List LogEntry :=
  (s, (offlineRackSet s).map (fun d =>
    ⟨.failure, some d.name,
      "rack defined for status Offline device: " ++ d.siteSlug ++ "-" ++ d.rack.getD ""⟩))

/-- coherence.py test_online_rack. -/
def test_online_rack (s : NetboxState) : NetboxState × List LogEntry :=
  (s, ((getDevicesQuery s).filter (fun d =>
      !([DEVICE_STATUS_OFFLINE, DEVICE_STATUS_PLANNED, DEVICE_STATUS_INVENTORY].contains
        d.status) && d.rack == none)).map (fun d =>
    ⟨.failure, some d.name, "no rack defined for status " ++ statusLabel d.status ++ " device"⟩))

end Coherence

namespace OldHardwareReport

/-- oldhardware.py EXCLUDE_ROLES. -/
def EXCLUDE_ROLES : List String := ["cablemgmt", "storagebin"]

/-- oldhardware.py devquery: not inventory or offline, role not excluded. -/
def devquery (s : NetboxState) : List Device :=
  s.devices.filter (fun d =>
    !([DEVICE_STATUS_INVENTORY, DEVICE_STATUS_OFFLINE].contains d.status) &&
    !EXCLUDE_ROLES.contains d.roleSlug)

/-- oldhardware.py cfs: the purchase_date CustomFieldValue rows reachable
from the query's devices, keyed by the row's own pk (the code later looks
this dict up by device pk). -/
def cfs (s : NetboxState) : List (Nat × Int) :=
  (devquery s).flatMap (fun d =>
    d.customFields.filterMap (fun c =>
      if c.fieldName == "purchase_date" then
        match c.value with
        | .date v => some (c.pk, v)
        | .str _ => none
      else none))

/-- round((today - purchase_date).days / 365.25, 1) in tenths of a year.
40 days over 1461 is never an exact half, so ordinary rounding and python's
round agree here. -/
def ageTenths (today pd : Int) : Int := round (((today - pd) * 40 : ℚ) / 1461)

/-- Rendering of the one-decimal age format. -/
def fmtTenths (t : Int) : String := toString (t / 10) ++ "." ++ toString (t % 10)

/-- oldhardware.py test_hardware_age; `today` is datetime.today().date(). -/
def test_hardware_age (today : Int) (s : NetboxState) : NetboxState × List LogEntry :=
  (s,
    let table := cfs s
    let r := (devquery s).foldl
      (fun (acc : Nat × List LogEntry × List (Int × Int × Device)) device =>
        match table.lookup device.pk with
        | none =>
          (acc.1, acc.2.1 ++ [⟨.failure, some device.name, "null purchase date."⟩], acc.2.2)
        | some pd =>
          let age := ageTenths today pd
          if age < 45 then (acc.1 + 1, acc.2.1, acc.2.2)
          else (acc.1, acc.2.1, acc.2.2 ++ [(age, pd, device)]))
      (0, [], [])
    let sortedRes := r.2.2.mergeSort (fun a b => decide (b.1 ≤ a.1))
    r.2.1 ++
      sortedRes.map (fun it =>
        if 50 ≤ it.1 then
          ⟨.failure, some it.2.2.name,
            "old device with purchase date: " ++ toString it.2.1 ++
              " (age: " ++ fmtTenths it.1 ++ "y)"⟩
        else
          ⟨.warning, some it.2.2.name,
            "almost old device with purchase date: " ++ toString it.2.1 ++
              " (age: " ++ fmtTenths it.1 ++ "y)"⟩) ++
      [⟨.success, none, toString r.1 ++ " devices with ages less than 4.5 years."⟩])

end OldHardwareReport

namespace LibreNMSRep

/-- librenms.py INCLUDE_STATUSES. -/
def INCLUDE_STATUSES : List Nat := [DEVICE_STATUS_ACTIVE, DEVICE_STATUS_STAGED]

/-- librenms.py INCLUDE_DEVICE_ROLES_LNMS_CHECK. -/
def INCLUDE_DEVICE_ROLES_LNMS_CHECK : List String :=
  ["asw", "msw", "cr", "mr", "pfw", "pdu", "scs"]

/-- librenms.py INCLUDE_DEVICE_ROLES. -/
def INCLUDE_DEVICE_ROLES : List String := ["asw", "msw", "cr", "mr", "pfw", "pdu"]

/-- librenms.py EXCLUDE_SITES. -/
def EXCLUDE_SITES : List String := ["esams"]

/-- librenms.py INVENTORY_MANUFACTURERS. -/
def INVENTORY_MANUFACTURERS : List String := ["juniper"]

/-- librenms.py MODEL_EQUIVS. -/
def MODEL_EQUIVS : List (String × String) := [("juniper ex4300-48t", "juniper routing engine")]

/-- librenms.py MODEL_EXCLUDES, the Q filter over manufacturer, role and
device type slugs. -/
def modelExcludes (d : Device) : Bool :=
  (d.manufacturerSlug == "netgear" && d.roleSlug == "msw") ||
  (d.manufacturerSlug == "dell" && d.deviceTypeSlug == "powerconnect-2748") ||
  (d.manufacturerSlug == "sj-manufacturing" && d.deviceTypeSlug == "thrupower") ||
  (d.manufacturerSlug == "sentry" &&
    ["smart-cdu", "switched-cdu", "c2l42ce-ycmfam00", "c2x42ce-2caf2m00"].contains
      d.deviceTypeSlug)

/-- librenms.py DEVICE_EXCLUDES: srx1500 devices whose name contains pfw3b. -/
def deviceExcludes (d : Device) : Bool :=
  d.deviceTypeSlug == "srx1500" && strIn "pfw3b" d.name

/-- One row of the LibreNMS devices table as LibreNMSData holds it (the SQL
query already lower-cased hardware and sysDescr and the node prefix of the
hardware column is stripped). -/
structure LibreDevice where
  id : Nat
  hardware : String
  description : String
  hostname : String
deriving DecidableEq

/-- One row of the LibreNMS entPhysical table as LibreNMSData holds it
(description, model and vendor already lower-cased by the SQL query). -/
structure LibreInventory where
  id : Nat
  description : String
  model : String
  vendor : String
deriving DecidableEq

/-- LibreNMSData after __init__: the devices and inventory dicts, keyed by
serial. -/
structure LibreNMSData where
  devices : List (String × LibreDevice)
  inventory : List (String × LibreInventory)
deriving DecidableEq

/-- Dict lookup by a NetBox serial; a null serial is in no dict. -/
def serialLookup {α : Type} (tbl : List (String × α)) : Option String → Option α
  | some k => tbl.lookup k
  | none => none

/-- The report's _device_query: devices whose status is active or staged. -/
def deviceQuery (s : NetboxState) : List Device :=
  s.devices.filter (fun d => INCLUDE_STATUSES.contains d.status)

/-- The filtered set of test_nb_net_in_librenms. -/
def nbNetFilter (s : NetboxState) : List Device :=
  (deviceQuery s).filter (fun d =>
    INCLUDE_DEVICE_ROLES.contains d.roleSlug && !modelExcludes d &&
    d.serial.isSome && !(d.serial == some "") && !deviceExcludes d)

/-- One device of test_nb_net_in_librenms. -/
def nbNetStep (ld : LibreNMSData) (acc : Nat × List LogEntry) (dev : Device) :
    Nat × List LogEntry :=
  if (serialLookup ld.devices dev.serial).isSome ||
      (INVENTORY_MANUFACTURERS.contains dev.manufacturerSlug &&
        (serialLookup ld.inventory dev.serial).isSome) then
    (acc.1 + 1, acc.2)
  else if !EXCLUDE_SITES.contains dev.siteSlug then
    (acc.1, acc.2 ++
      [⟨.failure, some dev.name,
        "missing Netbox device from LibreNMS of role " ++ dev.roleSlug⟩])
  else acc

/-- librenms.py test_nb_net_in_librenms. -/
def test_nb_net_in_librenms (ld : LibreNMSData) (s : NetboxState) :
    NetboxState × List LogEntry :=
  (s,
    let r := (nbNetFilter s).foldl (nbNetStep ld) (0, [])
    r.2 ++ [⟨.success, none, toString r.1 ++ " Netbox devices in LibreNMS"⟩])

/-- The parent pks of test_nb_inventory_in_librenms. -/
def invParents (s : NetboxState) : List Nat :=
  ((deviceQuery s).filter (fun d => INCLUDE_DEVICE_ROLES.contains d.roleSlug)).map
    (fun d => d.pk)

/-- The filtered inventory items of test_nb_inventory_in_librenms. -/
def invFilter (s : NetboxState) : List InventoryItem :=
  s.inventoryItems.filter (fun it =>
    (invParents s).contains it.devicePk && it.serial.isSome && !(it.serial == some ""))

/-- One item of test_nb_inventory_in_librenms. -/
def invStep (ld : LibreNMSData) (acc : Nat × List LogEntry) (it : InventoryItem) :
    Nat × List LogEntry :=
  if (serialLookup ld.inventory it.serial).isNone && !EXCLUDE_SITES.contains it.siteSlug then
    (acc.1, acc.2 ++ [⟨.failure, some it.name, "missing Netbox inventory item from LibreNMS"⟩])
  else (acc.1 + 1, acc.2)

/-- librenms.py test_nb_inventory_in_librenms. -/
def test_nb_inventory_in_librenms (ld : LibreNMSData) (s : NetboxState) :
    NetboxState × List LogEntry :=
  (s,
    let r := (invFilter s).foldl (invStep ld) (0, [])
    r.2 ++ [⟨.success, none, toString r.1 ++ " Netbox inventory items in LibreNMS"⟩])

/-- The serial values_list of test_librenms_in_nb. -/
def devserials (s : NetboxState) : List (Option String) :=
  ((deviceQuery s).filter (fun d =>
    INCLUDE_DEVICE_ROLES_LNMS_CHECK.contains d.roleSlug)).map (fun d => d.serial)

/-- One LibreNMS device of test_librenms_in_nb. -/
def libreInNbStep (serials : List (Option String)) (acc : Nat × List LogEntry)
    (kv : String × LibreDevice) : Nat × List LogEntry :=
  if !serials.contains (some kv.1) then
    (acc.1, acc.2 ++
      [⟨.failure, none,
        "missing LibreNMS device from Netbox: serial: " ++ kv.1 ++
          " hostname: " ++ kv.2.hostname ++ " id: " ++ toString kv.2.id⟩])
  else (acc.1 + 1, acc.2)

/-- librenms.py test_librenms_in_nb. -/
def test_librenms_in_nb (ld : LibreNMSData) (s : NetboxState) :
    NetboxState × List LogEntry :=
  (s,
    let r := ld.devices.foldl (libreInNbStep (devserials s)) (0, [])
    r.2 ++ [⟨.success, none, toString r.1 ++ " LibreNMS devices in Netbox"⟩])

/-- The filtered set of test_librenms_vendor_model. -/
def vendorModelFilter (s : NetboxState) : List Device :=
  (deviceQuery s).filter (fun d =>
    INCLUDE_DEVICE_ROLES.contains d.roleSlug && !modelExcludes d)

/-- test_librenms_vendor_model line 202: str of the manufacturer, lowered. -/
def nbVendorString (d : Device) : String := strLower d.manufacturerName

/-- test_librenms_vendor_model line 203: the model, lowered. -/
def nbModelString (d : Device) : String := strLower d.model

/-- test_librenms_vendor_model line 204: vendor and model joined by a space. -/
def nbVendorModelString (d : Device) : String := nbVendorString d ++ " " ++ nbModelString d

/-- The devices-table match condition of lines 207-213: vendor a substring
of hardware or description, and model a substring of hardware or
description. -/
def deviceBranchMatch (d : Device) (ldev : LibreDevice) : Bool :=
  (strIn (nbVendorString d) ldev.hardware || strIn (nbVendorString d) ldev.description) &&
    (strIn (nbModelString d) ldev.hardware || strIn (nbModelString d) ldev.description)

/-- The inventory-table match condition of lines 233-240. -/
def inventoryBranchMatch (d : Device) (inv : LibreInventory) : Bool :=
  let lvm := inv.vendor ++ " " ++ inv.model
  strIn (nbVendorModelString d) lvm ||
    (strIn (nbVendorString d) lvm && strIn (nbModelString d) lvm) ||
    strIn ((MODEL_EQUIVS.lookup (nbVendorModelString d)).getD "BADMATCH") lvm

/-- What test_librenms_vendor_model does with one device of its filtered
set: count it, log a failure against it, or do nothing at all. -/
inductive VMOutcome where
  | counted
  | logged (msg : String)
  | skipped
deriving DecidableEq

/-- The branch structure of test_librenms_vendor_model lines 205-249 for one
device. -/
def vmOutcome (ld : LibreNMSData) (d : Device) : VMOutcome :=
  match serialLookup ld.devices d.serial with
  | some ldev =>
    if deviceBranchMatch d ldev then .counted
    else if !EXCLUDE_SITES.contains d.siteSlug then
      .logged ("mismatch between LibreNMS and Netbox device types: Netbox devtype=" ++
        nbVendorModelString d ++ ", LibreNMS devtype=" ++ ldev.description ++ " || " ++
        ldev.hardware)
    else .skipped
  | none =>
    match serialLookup ld.inventory d.serial with
    | some inv =>
      if inventoryBranchMatch d inv then .counted
      else if !EXCLUDE_SITES.contains d.siteSlug then
        .logged ("mismatch between LibreNMS and Netbox device types: Netbox devtype=" ++
          nbVendorModelString d ++ ", LibreNMS devtype=" ++ (inv.vendor ++ " " ++ inv.model))
      else .skipped
    | none => .skipped

/-- Folding one device's outcome into the success count and the log list. -/
def vmStep (ld : LibreNMSData) (acc : Nat × List LogEntry) (d : Device) :
    Nat × List LogEntry :=
  match vmOutcome ld d with
  | .counted => (acc.1 + 1, acc.2)
  | .logged m => (acc.1, acc.2 ++ [⟨.failure, some d.name, m⟩])
  | .skipped => acc

/-- librenms.py test_librenms_vendor_model. -/
def test_librenms_vendor_model (ld : LibreNMSData) (s : NetboxState) :
    NetboxState × List LogEntry :=
  (s,
    let r := (vendorModelFilter s).foldl (vmStep ld) (0, [])
    r.2 ++ [⟨.success, none,
      toString r.1 ++ " LibreNMS hardware and manufacturer matches in Netbox"⟩])

end LibreNMSRep

/-- A decoded JSON fact value: boolean, string or null. -/
inductive FactVal where
  | vbool (b : Bool)
  | vstr (v : String)
  | vnull
deriving DecidableEq

/-- One HTTP response as the requests library hands it back: status code,
body text and the decoded JSON body (a facts object). -/
structure HttpResponse where
  statusCode : Nat
  text : String
  facts : List (String × FactVal)
deriving DecidableEq

/-- Python str() of an optional string: the word None when absent. -/
def optStr : Option String → String
  | none => "None"
  | some x => x

namespace PuppetDBRep

/-- puppetdb.py INCLUDE_ROLES. -/
def INCLUDE_ROLES : List String := ["server"]

/-- puppetdb.py EXCLUDE_STATUSES. -/
def EXCLUDE_STATUSES : List Nat :=
  [DEVICE_STATUS_INVENTORY, DEVICE_STATUS_OFFLINE, DEVICE_STATUS_PLANNED,
    DEVICE_STATUS_DECOMMISSIONING]

/-- puppetdb.py EXCLUDE_AND_FAILED_STATUSES. -/
def EXCLUDE_AND_FAILED_STATUSES : List Nat := EXCLUDE_STATUSES ++ [DEVICE_STATUS_FAILED]

/-- puppetdb.py _get_puppetdb_fact.  `trace` holds the responses that
successive HTTP GETs return, consumed front to back; the middle component
of the result lists the urls this call requested.  The url is built by
joining config url, /v1/facts and the fact name with slashes. -/
def getPuppetdbFact (cfgUrl : String) (fact : String) (trace : List HttpResponse) :
    Except String (List (String × FactVal)) × List String × List HttpResponse :=
  let url := cfgUrl ++ "/" ++ "/v1/facts" ++ "/" ++ fact
  match trace with
  | [] => (.error "no response", [url], [])
  | r :: rest =>
    if r.statusCode != 200 then
      (.error ("Cannot connect to PuppetDB " ++ url ++ " - " ++ toString r.statusCode ++
        " " ++ r.text), [url], rest)
    else (.ok r.facts, [url], rest)

/-- The report's device_query: server-role devices with a null tenant. -/
def deviceQuery (s : NetboxState) : List Device :=
  s.devices.filter (fun d => INCLUDE_ROLES.contains d.roleSlug && d.tenant == none)

/-- Django Device.objects.get(name=...) over all devices. -/
def deviceObjectsGetByName (s : NetboxState) (n : String) : Except PyErr Device :=
  match s.devices.filter (fun d => d.name == n) with
  | [] => .error .objectDoesNotExist
  | [d] => .ok d
  | _ :: _ :: _ => .error .multipleObjectsReturned

/-- The loop of test_puppetdb_in_netbox; stops early when the inner
Device.objects.get raises. -/
def pinLoop (s : NetboxState) (valid invalid : List String) :
    List (String × Bool) → Nat × List LogEntry → (Nat × List LogEntry) × Option PyErr
  | [], acc => (acc, none)
  | kv :: rest, acc =>
    if !kv.2 then
      if valid.contains kv.1 then pinLoop s valid invalid rest (acc.1 + 1, acc.2)
      else if invalid.contains kv.1 then
        match deviceObjectsGetByName s kv.1 with
        | .ok d =>
          pinLoop s valid invalid rest
            (acc.1, acc.2 ++ [⟨.failure, some d.name,
              "unexpected state for physical device: " ++ statusLabel d.status ++
                " in netbox"⟩])
        | .error e => (acc, some e)
      else
        pinLoop s valid invalid rest
          (acc.1, acc.2 ++ [⟨.failure, none,
            "expected device missing from Netbox: " ++ kv.1⟩])
    else pinLoop s valid invalid rest acc

/-- puppetdb.py test_puppetdb_in_netbox; `facts` is the is_virtual facts
dict. -/
def test_puppetdb_in_netbox (facts : List (String × Bool)) (s : NetboxState) :
    NetboxState × (List LogEntry × Option PyErr) :=
  (s,
    let valid :=
      ((deviceQuery s).filter (fun d => !EXCLUDE_STATUSES.contains d.status)).map
        (fun d => d.name)
    let invalid :=
      ((deviceQuery s).filter (fun d => EXCLUDE_STATUSES.contains d.status)).map
        (fun d => d.name)
    match pinLoop s valid invalid facts (0, []) with
    | (acc, none) =>
      (acc.2 ++ [⟨.success, none,
        toString acc.1 ++ " physical devices that are in PuppetDB are also in Netbox"⟩], none)
    | (acc, some e) => (acc.2, some e))

/-- One device of test_netbox_in_puppetdb. -/
def nipStep (facts : List (String × Bool)) (acc : Nat × List LogEntry) (device : Device) :
    Nat × List LogEntry :=
  match facts.lookup device.name with
  | none =>
    (acc.1, acc.2 ++ [⟨.failure, some device.name,
      "missing physical device in PuppetDB: state " ++ statusLabel device.status ++
        " in Netbox"⟩])
  | some isVirtual =>
    if isVirtual then
      (acc.1, acc.2 ++ [⟨.failure, some device.name,
        "expected physical device marked as virtual in PuppetDB"⟩])
    else (acc.1 + 1, acc.2)

/-- puppetdb.py test_netbox_in_puppetdb. -/
def test_netbox_in_puppetdb (facts : List (String × Bool)) (s : NetboxState) :
    NetboxState × List LogEntry :=
  (s,
    let r := ((deviceQuery s).filter (fun d =>
        !EXCLUDE_AND_FAILED_STATUSES.contains d.status)).foldl (nipStep facts) (0, [])
    r.2 ++ [⟨.success, none,
      toString r.1 ++ " physical devices that are in Netbox are also in PuppetDB"⟩])

/-- One device of test_puppetdb_serials. -/
def pserialStep (serials : List (String × String)) (acc : Nat × List LogEntry)
    (device : Device) : Nat × List LogEntry :=
  match serials.lookup device.name with
  | none => acc
  | some pserial =>
    if !(device.serial == some pserial) then
      (acc.1, acc.2 ++ [⟨.failure, some device.name,
        "mismatched serials: " ++ optStr device.serial ++ " (netbox) != " ++ pserial ++
          " (puppetdb)"⟩])
    else (acc.1 + 1, acc.2)

/-- puppetdb.py test_puppetdb_serials; `serials` is the serialnumber facts
dict. -/
def test_puppetdb_serials (serials : List (String × String)) (s : NetboxState) :
    NetboxState × List LogEntry :=
  (s,
    let r := (deviceQuery s).foldl (pserialStep serials) (0, [])
    r.2 ++ [⟨.success, none, toString r.1 ++ " physical devices have matching serial numbers"⟩])

/-- One device of test_puppetdb_models. -/
def pmodelStep (models : List (String × String)) (acc : Nat × List LogEntry)
    (device : Device) : Nat × List LogEntry :=
  match models.lookup device.name with
  | none => acc
  | some pmodel =>
    if !(device.model == pmodel) then
      (acc.1, acc.2 ++ [⟨.failure, some device.name,
        "mismatched device models: " ++ device.model ++ " (netbox) != " ++ pmodel ++
          " (puppetdb)"⟩])
    else (acc.1 + 1, acc.2)

/-- puppetdb.py test_puppetdb_models; `models` is the productname facts dict. -/
def test_puppetdb_models (models : List (String × String)) (s : NetboxState) :
    NetboxState × List LogEntry :=
  (s,
    let r := (deviceQuery s).foldl (pmodelStep models) (0, [])
    r.2 ++ [⟨.success, none, toString r.1 ++ " devices have matching model names"⟩])

/-- puppetdb.py test_puppetdb_vms_in_netbox. -/
def test_puppetdb_vms_in_netbox (facts : List (String × Bool)) (s : NetboxState) :
    NetboxState × List LogEntry :=
  (s,
    let vms := (s.vms.filter (fun v => !(v.status == DEVICE_STATUS_OFFLINE))).map
      (fun v => v.name)
    let r := facts.foldl (fun (acc : Nat × List LogEntry) kv =>
      if !kv.2 then acc
      else if !vms.contains kv.1 then
        (acc.1, acc.2 ++ [⟨.failure, none, "missing VM from Netbox: " ++ kv.1 ++ " "⟩])
      else (acc.1 + 1, acc.2)) (0, [])
    r.2 ++ [⟨.success, none,
      toString r.1 ++ " VMs that are in PuppetDB are also in Netbox VMs"⟩])

/-- One VM of test_netbox_vms_in_puppetdb. -/
def nvipStep (facts : List (String × Bool)) (acc : Nat × List LogEntry)
    (vm : VirtualMachine) : Nat × List LogEntry :=
  match facts.lookup vm.name with
  | none => (acc.1, acc.2 ++ [⟨.failure, some vm.name, "missing VM from PuppetDB"⟩])
  | some isVirtual =>
    if !isVirtual then
      (acc.1, acc.2 ++ [⟨.failure, some vm.name, "expected VM marked as Physical in PuppetDB"⟩])
    else (acc.1 + 1, acc.2)

/-- puppetdb.py test_netbox_vms_in_puppetdb. -/
def test_netbox_vms_in_puppetdb (facts : List (String × Bool)) (s : NetboxState) :
    NetboxState × List LogEntry :=
  (s,
    let r := (s.vms.filter (fun v => !(v.status == DEVICE_STATUS_OFFLINE))).foldl
      (nvipStep facts) (0, [])
    r.2 ++ [⟨.success, none,
      toString r.1 ++ " VMs that are in Netbox are also in PuppetDB VMs"⟩])

end PuppetDBRep

namespace PuppetdbSerials

/-- puppetdbserials.py INCLUDE_ROLES. -/
def INCLUDE_ROLES : List String := ["server"]

/-- puppetdbserials.py EXCLUDE_TENANTS. -/
def EXCLUDE_TENANTS : List String := ["fundraising-tech", "ripe"]

/-- puppetdbserials.py SOFT_CHECK_STATUS. -/
def SOFT_CHECK_STATUS : List Nat :=
  [DEVICE_STATUS_INVENTORY, DEVICE_STATUS_OFFLINE, DEVICE_STATUS_PLANNED]

/-- The constructor of the puppetdbserials PuppetDB report: one GET of
puppetdb_url plus /v1/facts/serialnumber, raising unless the status is 200,
otherwise storing the decoded body.  Same trace convention as
PuppetDBRep.getPuppetdbFact. -/
def initFetch (puppetdbUrl : String) (trace : List HttpResponse) :
    Except String (List (String × FactVal)) × List String × List HttpResponse :=
  let url := puppetdbUrl ++ "/v1/facts/serialnumber"
  match trace with
  | [] => (.error "no response", [url], [])
  | r :: rest =>
    if r.statusCode != 200 then
      (.error ("Cannot connect to PuppetDB " ++ puppetdbUrl ++ " - " ++
        toString r.statusCode ++ " " ++ r.text), [url], rest)
    else (.ok r.facts, [url], rest)

/-- The report's device_query: server-role devices whose tenant, when they
have one, is not excluded (Django exclude over a join keeps the rows with a
null tenant). -/
def deviceQuery (s : NetboxState) : List Device :=
  s.devices.filter (fun d =>
    INCLUDE_ROLES.contains d.roleSlug &&
      (match d.tenant with
       | none => true
       | some t => !EXCLUDE_TENANTS.contains t.slug))

/-- puppetdbserials.py test_puppetdb_in_netbox; `serials` is the
serialnumber facts dict (null for VMs). -/
def test_puppetdb_in_netbox (serials : List (String × Option String)) (s : NetboxState) :
    NetboxState × List LogEntry :=
  (s,
    let hostnames := (deviceQuery s).map (fun d => d.name)
    let r := serials.foldl (fun (acc : Nat × List LogEntry) kv =>
      match kv.2 with
      | none => acc
      | some _ =>
        if !hostnames.contains kv.1 then
          (acc.1, acc.2 ++ [⟨.failure, none, kv.1 ++ " device missing from Netbox"⟩])
        else (acc.1 + 1, acc.2)) (0, [])
    r.2 ++ [⟨.info, none,
      toString r.1 ++ " physical devices that are in PuppetDB are also in Netbox."⟩])

/-- puppetdbserials.py test_netbox_in_puppetdb.  The softfail python set is
iterated here in insertion order (the python set's own order is
unspecified). -/
def test_netbox_in_puppetdb (serials : List (String × Option String)) (s : NetboxState) :
    NetboxState × List LogEntry :=
  (s,
    let r := (deviceQuery s).foldl
      (fun (acc : Nat × List LogEntry × List Device) host =>
        if (serials.lookup host.name).isNone then
          if SOFT_CHECK_STATUS.contains host.status then
            (acc.1, acc.2.1, acc.2.2 ++ [host])
          else
            (acc.1, acc.2.1 ++ [⟨.failure, some host.name, "device missing from PuppetDB"⟩],
              acc.2.2)
        else (acc.1 + 1, acc.2.1, acc.2.2)) (0, [], [])
    r.2.1 ++
      r.2.2.map (fun host =>
        ⟨.warning, some host.name,
          "(soft) device missing from PuppetDB (with status " ++ statusLabel host.status ++
            ")"⟩) ++
      [⟨.info, none, toString r.1 ++ " devices that are in Netbox are also in PuppetDB"⟩])

/-- puppetdbserials.py test_puppetdb_serials. -/
def test_puppetdb_serials (serials : List (String × Option String)) (s : NetboxState) :
    NetboxState × List LogEntry :=
  (s,
    let r := (deviceQuery s).foldl (fun (acc : Nat × List LogEntry) host =>
      match serials.lookup host.name with
      | none => acc
      | some pserial =>
        if !(host.serial == pserial) then
          (acc.1, acc.2 ++ [⟨.failure, some host.name,
            "serials do not match: netbox:" ++ optStr host.serial ++ " != puppetdb:" ++
              optStr pserial⟩])
        else (acc.1 + 1, acc.2)) (0, [])
    r.2 ++ [⟨.info, none, toString r.1 ++ " devices have matching serial numbers."⟩])

/-- puppetdbserials.py test_puppetdb_vms_in_netbox. -/
def test_puppetdb_vms_in_netbox (serials : List (String × Option String)) (s : NetboxState) :
    NetboxState × List LogEntry :=
  (s,
    let hosts := s.vms.map (fun v => v.name)
    let puppetnulls := serials.filterMap (fun kv =>
      match kv.2 with
      | none => some kv.1
      | some _ => none)
    let r := puppetnulls.foldl (fun (acc : Nat × List LogEntry) host =>
      if !hosts.contains host then
        (acc.1, acc.2 ++ [⟨.failure, none, host ++ " not in Netbox VMs."⟩])
      else (acc.1 + 1, acc.2)) (0, [])
    r.2 ++ [⟨.info, none, toString r.1 ++ " VMs from PuppetDB in Netbox."⟩])

end PuppetdbSerials

namespace Juniper

/-- juniper.py STATUS_IGNORE. -/
def STATUS_IGNORE : List Nat := [DEVICE_STATUS_OFFLINE, DEVICE_STATUS_DECOMMISSIONING]

/-- One asset row of the installed-base CSV, reduced to the columns the
tests read. -/
structure JAsset where
  productName : String
  installCity : String
  statusStr : String
  contractEndDate : String
deriving DecidableEq

/-- python `if not self.installed_base:` — None (failed CSV load) and an
empty dict are both falsy. -/
def ibFalsy (ib : Option (List (String × JAsset))) : Bool :=
  match ib with
  | none => true
  | some l => l.isEmpty

/-- The failure line each test logs when the CSV could not be loaded. -/
def csvFailLog : LogEntry :=
  ⟨.failure, none, "Can\x27t load CSV file from /tmp/juniper_installed_base.csv"⟩

/-- Membership of a (possibly null) NetBox serial in a dict keyed by serial. -/
def serialIn {α : Type} (serial : Option String) (tbl : List (String × α)) : Bool :=
  match serial with
  | some k => (tbl.lookup k).isSome
  | none => false

/-- The juniper_devices query of test_missing_device_from_installed_base. -/
def juniperDevices (s : NetboxState) : List Device :=
  s.devices.filter (fun d =>
    d.serial.isSome && !(d.serial == some "") &&
    !STATUS_IGNORE.contains d.status && d.manufacturerSlug == "juniper")

/-- juniper.py test_missing_device_from_installed_base. -/
def test_missing_device_from_installed_base (ib : Option (List (String × JAsset)))
    (s : NetboxState) : NetboxState × List LogEntry :=
  (s,
    if ibFalsy ib then [csvFailLog]
    else
      let base := ib.getD []
      let r := (juniperDevices s).foldl (fun (acc : Nat × List LogEntry) device =>
        if !serialIn device.serial base then
          (acc.1, acc.2 ++ [⟨.failure, some device.name,
            "Device with s/n " ++ optStr device.serial ++
              " not present in Juniper Installed Base"⟩])
        else (acc.1 + 1, acc.2)) (0, [])
      r.2 ++ (if r.1 != 0 then [⟨.success, none, toString r.1 ++ " devices matched"⟩] else []))

/-- The parents pk list of test_missing_inventory_from_installed_base. -/
def invParents (s : NetboxState) : List Nat :=
  (s.devices.filter (fun d =>
    d.manufacturerSlug == "juniper" && !STATUS_IGNORE.contains d.status)).map (fun d => d.pk)

/-- The juniper_inventory query of test_missing_inventory_from_installed_base. -/
def juniperInventory (s : NetboxState) : List InventoryItem :=
  s.inventoryItems.filter (fun it =>
    it.serial.isSome && !(it.serial == some "") &&
    (invParents s).contains it.devicePk && it.manufacturerSlug == "juniper")

/-- juniper.py test_missing_inventory_from_installed_base. -/
def test_missing_inventory_from_installed_base (ib : Option (List (String × JAsset)))
    (s : NetboxState) : NetboxState × List LogEntry :=
  (s,
    if ibFalsy ib then [csvFailLog]
    else
      let base := ib.getD []
      let r := (juniperInventory s).foldl (fun (acc : Nat × List LogEntry) it =>
        if !serialIn it.serial base then
          (acc.1, acc.2 ++ [⟨.failure, some it.name,
            it.deviceName ++ " item " ++ it.partId ++ " with s/n " ++ optStr it.serial ++
              " not present in Juniper Installed Base"⟩])
        else (acc.1 + 1, acc.2)) (0, [])
      r.2 ++
        (if r.1 != 0 then [⟨.success, none, toString r.1 ++ " inventory items matched"⟩]
         else []))

/-- The juniper_devices query of test_consistency (no status filter). -/
def consistencyDevices (s : NetboxState) : List Device :=
  s.devices.filter (fun d =>
    d.serial.isSome && !(d.serial == some "") && d.manufacturerSlug == "juniper")

/-- The juniper_inventory query of test_consistency. -/
def consistencyInventory (s : NetboxState) : List InventoryItem :=
  s.inventoryItems.filter (fun it =>
    it.serial.isSome && !(it.serial == some "") && it.manufacturerSlug == "juniper")

/-- The devices dict of test_consistency keyed by serial: later rows
overwrite earlier ones, so lookup keeps the last match. -/
def lastBySerial (l : List Device) (k : String) : Option Device :=
  (l.filter (fun d => d.serial == some k)).getLast?

/-- One asset of test_consistency.  The counters are serial, address and
support matches in that order. -/
def consistencyStep (devs : List Device) (invSerials : List String)
    (acc : (Nat × Nat × Nat) × List LogEntry) (kv : String × JAsset) :
    (Nat × Nat × Nat) × List LogEntry :=
  match lastBySerial devs kv.1 with
  | none =>
    if invSerials.contains kv.1 then
      ((acc.1.1 + 1, acc.1.2.1, acc.1.2.2), acc.2)
    else
      (acc.1, acc.2 ++ [⟨.failure, none,
        "Device " ++ kv.2.productName ++ " with s/n " ++ kv.1 ++ " not present in Netbox"⟩])
  | some device =>
    let city := strLower kv.2.installCity
    let am : Nat × List LogEntry :=
      if !strIn city (strLower device.sitePhysicalAddress) then
        (acc.1.2.1, acc.2 ++ [⟨.failure, some device.name,
          "City missmatch: " ++ city ++ " (Juniper) vs. " ++ device.sitePhysicalAddress ++
            " (Netbox)"⟩])
      else (acc.1.2.1 + 1, acc.2)
    let activeSupport := kv.2.statusStr == "Active"
    let sm : Nat × List LogEntry :=
      if !STATUS_IGNORE.contains device.status && !activeSupport &&
          !(kv.2.contractEndDate == "") then
        (acc.1.2.2, am.2 ++ [⟨.failure, some device.name,
          "Support missing, ended on: " ++ kv.2.contractEndDate⟩])
      else (acc.1.2.2 + 1, am.2)
    ((acc.1.1 + 1, am.1, sm.1), sm.2)

/-- juniper.py test_consistency. -/
def test_consistency (ib : Option (List (String × JAsset))) (s : NetboxState) :
    NetboxState × List LogEntry :=
  (s,
    if ibFalsy ib then [csvFailLog]
    else
      let base := ib.getD []
      let invSerials := (consistencyInventory s).filterMap (fun it => it.serial)
      let r := base.foldl (consistencyStep (consistencyDevices s) invSerials) ((0, 0, 0), [])
      r.2 ++
        (if r.1.1 != 0 || r.1.2.2 != 0 || r.1.2.1 != 0 then
          [⟨.success, none,
            toString r.1.1 ++ " matching serials; " ++ toString r.1.2.1 ++
              " matching addresses; " ++ toString r.1.2.2 ++ " matching support"⟩]
         else []))

end Juniper

namespace Accounting

/-- One parsed row of the accounting sheet as get_assets_from_accounting
stores it (dates as day numbers). -/
structure AcctAsset where
  date : Int
  serial : String
  assetTag : String
  ticket : String
deriving DecidableEq

/-- python equality of the sheet's ticket string against the device's
ticket custom-field value (a missing value never equals a string). -/
def ticketEq (t : String) (v : Option CFVal) : Bool :=
  match v with
  | some (.str x) => x == t
  | _ => false

/-- Device.objects.filter(serial__in=assets.keys()). -/
def qsBySerial (assets : List (String × AcctAsset)) (s : NetboxState) : List Device :=
  s.devices.filter (fun d =>
    match d.serial with
    | some x => (assets.lookup x).isSome
    | none => false)

/-- The devices dict of test_field_match keyed by serial, last row wins. -/
def lastBySerial (l : List Device) (k : String) : Option Device :=
  (l.filter (fun d => d.serial == some k)).getLast?

/-- One asset of test_field_match.  The counters are asset-tag matches and
ticket matches. -/
def fieldMatchStep (devs : List Device) (acc : (Nat × Nat) × List LogEntry)
    (kv : String × AcctAsset) : (Nat × Nat) × List LogEntry :=
  match lastBySerial devs kv.1 with
  | none =>
    (acc.1, acc.2 ++ [⟨.failure, none,
      "Device with s/n " ++ kv.1 ++ " (" ++ kv.2.assetTag ++ ") not present in Netbox"⟩])
  | some device =>
    let atm : Nat × List LogEntry :=
      if !(device.assetTag == some kv.2.assetTag) then
        (acc.1.1, acc.2 ++ [⟨.failure, some device.name,
          "Asset tag mismatch for s/n " ++ kv.1 ++ ": " ++ kv.2.assetTag ++
            " (Accounting) vs. " ++ optStr device.assetTag ++ " (Netbox)"⟩])
      else (acc.1.1 + 1, acc.2)
    let tm : Nat × List LogEntry :=
      if !ticketEq kv.2.ticket (device.mpcf "ticket") then
        (acc.1.2, atm.2 ++ [⟨.warning, some device.name,
          "Ticket mismatch for s/n " ++ kv.1 ++ ": " ++ kv.2.ticket ++
            " (Accounting) vs. " ++ Coherence.cfvStr (device.mpcf "ticket") ++ " (Netbox)"⟩])
      else (acc.1.2 + 1, atm.2)
    ((atm.1, tm.1), tm.2)

/-- accounting.py test_field_match. -/
def test_field_match (assets : List (String × AcctAsset)) (s : NetboxState) :
    NetboxState × List LogEntry :=
  (s,
    let r := assets.foldl (fieldMatchStep (qsBySerial assets s)) ((0, 0), [])
    r.2 ++ [⟨.success, none,
      toString r.1.1 ++ " asset tags and " ++ toString r.1.2 ++ " tickets matched"⟩])

/-- date(2017, 7, 1), the start of the spreadsheet, as a day number. -/
def oldestDate : Int := 17348

/-- The recent_devices query of test_missing_assets_from_accounting:
non-empty serial and a purchase_date custom field between oldestDate and
today minus ninety days. -/
def recentDevices (today : Int) (s : NetboxState) : List Device :=
  s.devices.filter (fun d =>
    !(d.serial == some "") && !(d.serial == none) &&
      (match d.purchaseDate with
       | some pd => decide (oldestDate ≤ pd) && decide (pd ≤ today - 90)
       | none => false))

/-- accounting.py test_missing_assets_from_accounting (the summary line
renders the day numbers where python renders ISO dates). -/
def test_missing_assets_from_accounting (today : Int) (assets : List (String × AcctAsset))
    (s : NetboxState) : NetboxState × List LogEntry :=
  (s,
    let r := (recentDevices today s).foldl (fun (acc : Nat × List LogEntry) device =>
      if !(match device.serial with
           | some x => (assets.lookup x).isSome
           | none => false) then
        (acc.1, acc.2 ++ [⟨.failure, some device.name,
          "Device with s/n " ++ optStr device.serial ++ " (" ++ optStr device.assetTag ++
            ") not present in Accounting"⟩])
      else (acc.1 + 1, acc.2)) (0, [])
    r.2 ++ [⟨.success, none,
      toString r.1 ++ " devices (" ++ toString oldestDate ++ " to " ++
        toString (today - 90) ++ ") matched"⟩])

end Accounting

namespace Cables

/-- cables.py EXCLUDE_STATUSES. -/
def EXCLUDE_STATUSES : List Nat :=
  [DEVICE_STATUS_DECOMMISSIONING, DEVICE_STATUS_INVENTORY, DEVICE_STATUS_OFFLINE,
    DEVICE_STATUS_PLANNED]

/-- cables.py _port_names_test over an already filtered query set. -/
def portNamesTest (queryset : List PortRec) (regex : String → Bool) (label : String) :
    List LogEntry :=
  let r := queryset.foldl (fun (acc : Nat × List LogEntry) cable =>
    if regex cable.name then (acc.1 + 1, acc.2)
    else (acc.1, acc.2 ++ [⟨.failure, some cable.deviceName,
      "incorrectly named " ++ label ++ " cable termination: " ++ cable.name⟩])) (0, [])
  r.2 ++ [⟨.success, none,
    toString r.1 ++ " correctly named " ++ label ++ " cable terminations"⟩]

/-- The .exclude(device__status__in=EXCLUDE_STATUSES) filter on a
termination query set. -/
def excludeStatuses (l : List PortRec) : List PortRec :=
  l.filter (fun p => !EXCLUDE_STATUSES.contains p.deviceStatus)

/-- cables.py test_console_port_termination_names. -/
def test_console_port_termination_names (s : NetboxState) : NetboxState × List LogEntry :=
  (s, portNamesTest (excludeStatuses s.consolePorts) consolePortNameMatch "console port")

/-- cables.py test_console_server_port_termination_names. -/
def test_console_server_port_termination_names (s : NetboxState) :
    NetboxState × List LogEntry :=
  (s, portNamesTest (excludeStatuses s.consoleServerPorts) consoleServerPortNameMatch
    "console server port")

/-- cables.py test_power_port_termination_names. -/
def test_power_port_termination_names (s : NetboxState) : NetboxState × List LogEntry :=
  (s, portNamesTest (excludeStatuses s.powerPorts) powerPortNameMatch "power port")

/-- cables.py test_power_outlet_termination_names. -/
def test_power_outlet_termination_names (s : NetboxState) : NetboxState × List LogEntry :=
  (s, portNamesTest (excludeStatuses s.powerOutlets) powerOutletNameMatch "power outlet")

/-- cables.py test_interface_termination_names. -/
def test_interface_termination_names (s : NetboxState) : NetboxState × List LogEntry :=
  (s, portNamesTest (excludeStatuses s.interfaces) interfaceNameMatch "interface")

/-- cables.py _get_site_slug_for_cable. -/
def siteSlugForCable (c : CableRec) : String :=
  if c.termAType == "circuit termination" && c.termASiteSlug.isSome then
    c.termASiteSlug.getD "none"
  else
    match c.termADeviceSiteSlug with
    | some sl => sl
    | none => "none"

/-- The cable filter of test_duplicate_cable_label. -/
def dupFilter (s : NetboxState) : List CableRec :=
  s.cables.filter (fun c =>
    !(c.label == none) && !(c.label == some "") && c.termAId.isSome && c.termBId.isSome)

/-- Append a cable under its (stripped label, site) key, keeping first
insertion order as a python defaultdict does. -/
def upsert (m : List ((String × String) × List CableRec)) (k : String × String)
    (c : CableRec) : List ((String × String) × List CableRec) :=
  match m with
  | [] => [(k, [c])]
  | kv :: rest => if kv.1 == k then (kv.1, kv.2 ++ [c]) :: rest else kv :: upsert rest k c

/-- The labelcounts dict of test_duplicate_cable_label (str.strip embedded
as String.trim). -/
def labelcounts (s : NetboxState) : List ((String × String) × List CableRec) :=
  (dupFilter s).foldl (fun m c =>
    let lbl := (c.label.getD "").trim
    if !(lbl == "") then upsert m (lbl, siteSlugForCable c) c else m) []

/-- cables.py test_duplicate_cable_label. -/
def test_duplicate_cable_label (s : NetboxState) : NetboxState × List LogEntry :=
  (s,
    let r := (labelcounts s).foldl (fun (acc : Nat × List LogEntry) kv =>
      if decide (1 < kv.2.length) then
        (acc.1, acc.2 ++ kv.2.map (fun c =>
          ⟨.failure, some ("cable " ++ toString c.pk),
            "duplicate cable label (site " ++ kv.1.2 ++ ")"⟩))
      else (acc.1 + 1, acc.2)) (0, [])
    r.2 ++ [⟨.success, none, toString r.1 ++ " non-duplicate cable labels."⟩])

/-- cables.py test_blank_cable_label. -/
def test_blank_cable_label (s : NetboxState) : NetboxState × List LogEntry :=
  (s,
    let r := (s.cables.filter (fun c => c.status == true)).foldl
      (fun (acc : Nat × List LogEntry) c =>
        if c.label == none || ((c.label.getD "").trim == "") then
          (acc.1, acc.2 ++ [⟨.failure, some ("cable " ++ toString c.pk),
            "blank cable label (site " ++ siteSlugForCable c ++ ")"⟩])
        else (acc.1 + 1, acc.2)) (0, [])
    r.2 ++ [⟨.success, none, toString r.1 ++ " non-blank cable labels"⟩])

end Cables

namespace ManagementRoot

/-- management.py (repository root) DEVICEROLES. -/
def DEVICEROLES : List String := ["cr", "asw", "mr", "pfw"]

/-- management.py (repository root) EXCLUDED_SITES. -/
def EXCLUDED_SITES : List String := ["eqord", "eqdfw", "knams"]

/-- The machine query: status excluded directly, roles and sites via pk
subqueries (role and site slugs are unique, so the pk joins reduce to slug
membership). -/
def machines (s : NetboxState) : List Device :=
  s.devices.filter (fun d =>
    !([DEVICE_STATUS_INVENTORY, DEVICE_STATUS_OFFLINE, DEVICE_STATUS_PLANNED].contains
      d.status) &&
    DEVICEROLES.contains d.roleSlug && !EXCLUDED_SITES.contains d.siteSlug)

/-- machine.console_ports.all(). -/
def consolePortsOf (s : NetboxState) (d : Device) : List PortRec :=
  s.consolePorts.filter (fun p => p.deviceName == d.name)

/-- The body of the machine loop: no ports is a failure, the for/else logs
success on the first connected port with a console-server port attached
(cs_port is a related object, never the empty string), failure otherwise. -/
def machineLog (s : NetboxState) (machine : Device) : LogEntry :=
  let ports := consolePortsOf s machine
  if ports.isEmpty then ⟨.failure, some machine.name, "no console ports present"⟩
  else if ports.any (fun port =>
      port.connectionStatus == some CONNECTION_STATUS_CONNECTED &&
        !(port.csPort == none) && !(port.csPort == some "")) then
    ⟨.success, some machine.name, "at least one console connection is present"⟩
  else ⟨.failure, some machine.name, "only unconnected console ports are present"⟩

/-- management.py (repository root) test_management_console. -/
def test_management_console (s : NetboxState) : NetboxState × List LogEntry :=
  (s, (machines s).map (machineLog s))

end ManagementRoot

namespace ManagementReports

/-- reports/management.py DEVICE_ROLES. -/
def DEVICE_ROLES : List String := ["cr", "asw", "mr", "pfw"]

/-- reports/management.py EXCLUDED_SITES. -/
def EXCLUDED_SITES : List String := ["eqord", "eqdfw", "knams"]

/-- The device query of reports/management.py test_management_console. -/
def devices (s : NetboxState) : List Device :=
  s.devices.filter (fun d =>
    !([DEVICE_STATUS_INVENTORY, DEVICE_STATUS_OFFLINE, DEVICE_STATUS_PLANNED,
        DEVICE_STATUS_DECOMMISSIONING].contains d.status) &&
    DEVICE_ROLES.contains d.roleSlug && !EXCLUDED_SITES.contains d.siteSlug)

/-- reports/management.py test_management_console. -/
def test_management_console (s : NetboxState) : NetboxState × List LogEntry :=
  (s,
    let r := (devices s).foldl (fun (acc : Nat × List LogEntry) device =>
      let ports := s.consolePorts.filter (fun p => p.deviceName == device.name)
      if ports.isEmpty then
        (acc.1, acc.2 ++ [⟨.failure, some device.name, "missing console port"⟩])
      else if ports.any (fun port =>
          port.connectionStatus == some CONNECTION_STATUS_CONNECTED) then
        (acc.1 + 1, acc.2)
      else (acc.1, acc.2 ++ [⟨.failure, some device.name, "missing connected console port"⟩]))
      (0, [])
    r.2 ++ [⟨.success, none, toString r.1 ++ " devices with connected ports"⟩])

end ManagementReports

/-- The external data sources each report module opens in its constructor
or loader, as read from the module: coherence.py, cables.py, the two
management.py copies and oldhardware.py open none (they check NetBox data
against itself); accounting.py fetches one Google Sheet; juniper.py reads
one CSV file; librenms.py connects to one MySQL database; puppetdb.py and
puppetdbserials.py query one PuppetDB HTTP endpoint each. -/
def externalSourcesOf : String → List String
  | "coherence" => []
  | "cables" => []
  | "management" => []
  | "management-report" => []
  | "oldhardware" => []
  | "accounting" => ["google-sheets:accounting"]
  | "juniper" => ["csv:/tmp/juniper_installed_base.csv"]
  | "librenms" => ["mysql:librenms"]
  | "puppetdb" => ["http:puppetdb"]
  | "puppetdbserials" => ["http:puppetdb"]
  | _ => []

/-- The report modules of the repository. -/
def reportModules : List String :=
  ["accounting", "cables", "coherence", "juniper", "librenms", "management",
    "management-report", "oldhardware", "puppetdb", "puppetdbserials"]

namespace Coherence

/-- Whether test_malformed_asset_tags counts a device as correctly tagged. -/
def assetTagOk (d : Device) : Bool :=
  match d.assetTag with
  | none => false
  | some tag => assetTagMatch tag

/-- The failure entry test_malformed_asset_tags logs for a device, when it
logs one. -/
def assetTagFailEntry (d : Device) : Option LogEntry :=
  match d.assetTag with
  | none => some ⟨.failure, some d.name, "missing asset tag"⟩
  | some tag =>
    if assetTagMatch tag then none
    else some ⟨.failure, some d.name, "malformed asset tag: " ++ tag⟩

end Coherence

namespace LibreNMSRep

/-- The failure entry test_librenms_vendor_model logs for a device, when it
logs one. -/
def vmLogEntry (ld : LibreNMSData) (d : Device) : Option LogEntry :=
  match vmOutcome ld d with
  | .logged m => some ⟨.failure, some d.name, m⟩
  | _ => none

end LibreNMSRep

/-- A server device at site eqiad with no tenant, used by the witnesses. -/
def devW : Device :=
  { pk := 1, name := "srv1", serial := some "SER0", assetTag := none,
    status := DEVICE_STATUS_ACTIVE, roleSlug := "server", siteSlug := "eqiad",
    sitePhysicalAddress := "", tenant := none, rack := none,
    manufacturerSlug := "dell", manufacturerName := "Dell",
    deviceTypeSlug := "poweredge-r440", model := "PowerEdge R440", customFields := [] }

/-- A frack device: same shape with the fr-tech tenant. -/
def devF : Device := { devW with name := "frsrv1", tenant := some ⟨"fr-tech"⟩ }

/-- A mgmt interface row for the witnesses. -/
def ifW : InterfaceRec :=
  { name := "mgmt", deviceName := "srv1", mgmtOnly := true, typ := IFACE_TYPE_1GE_FIXED }

/-- The management prefix 10.0.0.0/16 at eqiad with no tenant. -/
def pW : PrefixRec :=
  { siteSlug := "eqiad", roleSlug := "management", tenant := none,
    net := ⟨167772160, 16⟩, family := 4, vrfPk := none }

/-- The fr-tech management prefix at eqiad. -/
def pF : PrefixRec := { pW with tenant := some ⟨"fr-tech"⟩ }

/-- A state holding exactly the two management prefixes and nothing else. -/
def sW : ScriptState :=
  { prefixes := [pW, pF], interfaces := [], ipaddresses := [], logs := [] }

/-- A state with no prefixes at all. -/
def sE : ScriptState := { sW with prefixes := [] }

/-- An availability oracle: one address inside the reserved first /24
(10.0.0.1) and one outside it (10.0.1.0). -/
def availW : ScriptState → PrefixRec → List Nat := fun _ _ => [167772161, 167772416]

/-- An availability oracle that only yields the reserved address 10.0.0.1. -/
def availE : ScriptState → PrefixRec → List Nat := fun _ _ => [167772161]

/-- An availability oracle that yields nothing. -/
def availN : ScriptState → PrefixRec → List Nat := fun _ _ => []

/-- An active asw Juniper device whose serial is in neither LibreNMS table,
used by the silent-skip counterexample. -/
def cxDevice : Device :=
  { pk := 7, name := "asw-a1-eqiad", serial := some "SERX", assetTag := none,
    status := DEVICE_STATUS_ACTIVE, roleSlug := "asw", siteSlug := "eqiad",
    sitePhysicalAddress := "", tenant := none, rack := none,
    manufacturerSlug := "juniper", manufacturerName := "Juniper",
    deviceTypeSlug := "ex4300-48t", model := "EX4300-48T", customFields := [] }

/-- The NetBox state holding only cxDevice. -/
def cxState : NetboxState :=
  { devices := [cxDevice], inventoryItems := [], vms := [], cables := [],
    consolePorts := [], consoleServerPorts := [], powerPorts := [],
    powerOutlets := [], interfaces := [] }

/-- An empty LibreNMS dataset. -/
def cxLd : LibreNMSRep.LibreNMSData := { devices := [], inventory := [] }

/-- A LibreNMS dataset holding one devices-table row matching cxDevice's
serial, used by the C7 witness. -/
def c7Row : LibreNMSRep.LibreDevice :=
  { id := 3, hardware := "juniper ex4300-48t",
    description := "juniper networks inc. ex4300-48t ethernet switch",
    hostname := "asw-a1-eqiad" }

/-- A LibreNMS dataset holding that one devices-table row keyed by
cxDevice's serial. -/
def c7Ld : LibreNMSRep.LibreNMSData :=
  { devices := [("SERX", c7Row)], inventory := [] }

/-! ## Lemmas about the ip selection loop and _add_ip_to_interface -/

theorem selectIp_none_eq (l : List Nat) : selectIp none l = l.head? := by
  cases l <;> rfl

theorem selectIp_some_eq (z : IPNet) (l : List Nat) :
    selectIp (some z) l = l.find? (fun a => !z.memB a) := by
  induction l with
  | nil => rfl
  | cons a t ih =>
    show (if z.memB a then selectIp (some z) t else some a) = _
    cases h : z.memB a <;> simp [List.find?, h, ih]

theorem selectIp_mem {zn : Option IPNet} {l : List Nat} {ip : Nat}
    (h : selectIp zn l = some ip) : ip ∈ l := by
  induction l with
  | nil => exact absurd h (by simp [selectIp])
  | cons a t ih =>
    cases zn with
    | none =>
      have ha : a = ip := by simpa [selectIp] using h
      simp [ha]
    | some z =>
      rw [show selectIp (some z) (a :: t) =
        if z.memB a then selectIp (some z) t else some a from rfl] at h
      split at h
      · exact List.mem_cons_of_mem _ (ih h)
      · simp only [Option.some.injEq] at h
        simp [h]

theorem addIp_interfaces_eq (available : ScriptState → PrefixRec → List Nat)
    (device : Device) (iface : InterfaceRec) (s : ScriptState) :
    (addIpToInterface available device iface s).2.interfaces = s.interfaces := by
  unfold addIpToInterface
  split
  · rfl
  · rfl
  · split
    · rfl
    · split <;> rfl

theorem addIp_logs_grow (available : ScriptState → PrefixRec → List Nat)
    (device : Device) (iface : InterfaceRec) (s : ScriptState) :
    s.logs <+: (addIpToInterface available device iface s).2.logs := by
  unfold addIpToInterface
  split
  · simp [ScriptState.addLog]
  · simp
  · split
    · simp [ScriptState.addLog]
    · split <;> simp [ScriptState.addLog]

theorem addIp_create_eq (available : ScriptState → PrefixRec → List Nat)
    (device : Device) (iface : InterfaceRec) (s : ScriptState) (p : PrefixRec)
    (zn : Option IPNet)
    (hp : prefixGet s.prefixes device.siteSlug device.tenant = .ok p)
    (hz : zerothNetFor device p = .ok zn) :
    (addIpToInterface available device iface s).2.ipaddresses =
      s.ipaddresses ++
        ((selectIp zn (available s p)).map (newIpFinal device iface p)).toList := by
  unfold addIpToInterface
  rw [hp]
  simp only [hz]
  cases hs : selectIp zn (available s p) with
  | none => simp [hs, ScriptState.addLog]
  | some ip => simp [hs, ScriptState.addLog, List.dropLast_concat]

/-- C1: when a management prefix is matched, a device with no tenant or a
tenant other than fr-tech is allocated the first address yielded by
get_available_ips that lies outside the first /24 subnet of the prefix (the
reserved block), and a device with the fr-tech tenant is allocated the
first yielded address with no block skipped (none yielded means no
allocation). -/
theorem C1_mgmt_ip_allocation (available : ScriptState → PrefixRec → List Nat)
    (device : Device) (iface : InterfaceRec) (s : ScriptState) (p : PrefixRec)
    (hp : prefixGet s.prefixes device.siteSlug device.tenant = .ok p) :
    (isFrTech device = true →
      (addIpToInterface available device iface s).2.ipaddresses =
        s.ipaddresses ++ ((available s p).head?.map (newIpFinal device iface p)).toList) ∧
    (isFrTech device = false → p.net.maskLen ≤ 24 →
      (addIpToInterface available device iface s).2.ipaddresses =
        s.ipaddresses ++
          (((available s p).find? (fun a => !(IPNet.memB ⟨p.net.base, 24⟩ a))).map
            (newIpFinal device iface p)).toList) := by
  constructor
  · intro hfr
    have hz : zerothNetFor device p = .ok none := by simp [zerothNetFor, hfr]
    rw [addIp_create_eq available device iface s p none hp hz, selectIp_none_eq]
  · intro hfr h24
    have hz : zerothNetFor device p = .ok (some ⟨p.net.base, 24⟩) := by
      simp [zerothNetFor, hfr, IPNet.zeroth24, h24]
    rw [addIp_create_eq available device iface s p (some ⟨p.net.base, 24⟩) hp hz,
      selectIp_some_eq]

/-- Witness for C1: with available addresses 10.0.0.1 and 10.0.1.0 on
10.0.0.0/16, the ordinary device gets 10.0.1.0 (the reserved 10.0.0.1 is
skipped) while the frack device gets 10.0.0.1. -/
theorem C1_mgmt_ip_allocation_witness :
    prefixGet sW.prefixes devW.siteSlug devW.tenant = .ok pW ∧
    isFrTech devW = false ∧ pW.net.maskLen ≤ 24 ∧
    (addIpToInterface availW devW ifW sW).2.ipaddresses =
      sW.ipaddresses ++ [newIpFinal devW ifW pW 167772416] ∧
    prefixGet sW.prefixes devF.siteSlug devF.tenant = .ok pF ∧
    isFrTech devF = true ∧
    (addIpToInterface availW devF ifW sW).2.ipaddresses =
      sW.ipaddresses ++ [newIpFinal devF ifW pF 167772161] := by
  refine ⟨rfl, rfl, by decide, ?_, rfl, rfl, ?_⟩
  · have h := (C1_mgmt_ip_allocation availW devW ifW sW pW rfl).2 rfl (by decide)
    rw [h]; rfl
  · have h := (C1_mgmt_ip_allocation availW devF ifW sW pF rfl).1 rfl
    rw [h]; rfl

/-- C2: every IPAddress row the script adds has its address drawn from
get_available_ips of the matched management prefix, so under the host's
contract that available addresses are not already allocated, no address is
allocated a second time: every row of the final state is either an old row
or a new row built from an available address that no old row carries. -/
theorem C2_no_double_allocation (available : ScriptState → PrefixRec → List Nat)
    (device : Device) (iface : InterfaceRec) (s : ScriptState)
    (havail : ∀ p ip, ip ∈ available s p →
      ¬ ip ∈ s.ipaddresses.map (fun q => q.address)) :
    ∀ r ∈ (addIpToInterface available device iface s).2.ipaddresses,
      r ∈ s.ipaddresses ∨
        ∃ p ip, prefixGet s.prefixes device.siteSlug device.tenant = .ok p ∧
          ip ∈ available s p ∧ r = newIpFinal device iface p ip ∧
          ¬ ip ∈ s.ipaddresses.map (fun q => q.address) := by
  intro r hr
  unfold addIpToInterface at hr
  split at hr
  · exact Or.inl (by simpa [ScriptState.addLog] using hr)
  · exact Or.inl hr
  · rename_i p hp
    split at hr
    · exact Or.inl (by simpa [ScriptState.addLog] using hr)
    · rename_i zn hz
      split at hr
      · rename_i ip hsel
        simp only [ScriptState.addLog, List.dropLast_concat] at hr
        rcases List.mem_append.mp hr with hold | hnew
        · exact Or.inl hold
        · have hmem : ip ∈ available s p := selectIp_mem hsel
          have hr2 : r = newIpFinal device iface p ip := by simpa using hnew
          exact Or.inr ⟨p, ip, hp, hmem, hr2, havail p ip hmem⟩
      · exact Or.inl (by simpa [ScriptState.addLog] using hr)

/-- Witness for C2: the row created for the ordinary device carries the
available address 10.0.1.0, which no pre-existing row holds. -/
theorem C2_no_double_allocation_witness :
    newIpFinal devW ifW pW 167772416 ∈ (addIpToInterface availW devW ifW sW).2.ipaddresses ∧
    (newIpFinal devW ifW pW 167772416 ∈ sW.ipaddresses ∨
      ∃ p ip, prefixGet sW.prefixes devW.siteSlug devW.tenant = .ok p ∧
        ip ∈ availW sW p ∧ newIpFinal devW ifW pW 167772416 = newIpFinal devW ifW p ip ∧
        ¬ ip ∈ sW.ipaddresses.map (fun q => q.address)) :=
  ⟨by decide,
    C2_no_double_allocation availW devW ifW sW (fun p ip _ => by simp [sW]) _ (by decide)⟩

/-- C3: for a device with no interface named mgmt, run creates exactly one
interface named mgmt with mgmt_only set and the 1GE-fixed type; with add_ip
false it returns the success message and neither changes the IP rows nor
depends on them (the same message comes back whatever the IP rows are). -/
theorem C3_run_no_addip (available : ScriptState → PrefixRec → List Nat)
    (device : Device) (s : ScriptState)
    (hnone : s.interfaces.filter
      (fun i => i.deviceName == device.name && i.name == "mgmt") = []) :
    (createManagementInterfaceRun available device false s).1 =
      .ok ("Created mgmt on device " ++ device.name) ∧
    (createManagementInterfaceRun available device false s).2.interfaces =
      s.interfaces ++ [⟨"mgmt", device.name, true, IFACE_TYPE_1GE_FIXED⟩] ∧
    mgmtCount (createManagementInterfaceRun available device false s).2 device = 1 ∧
    (createManagementInterfaceRun available device false s).2.ipaddresses =
      s.ipaddresses ∧
    (∀ ips2, (createManagementInterfaceRun available device false
      { s with ipaddresses := ips2 }).1 =
        .ok ("Created mgmt on device " ++ device.name)) := by
  have hget : interfacesGet s device "mgmt" = .error .objectDoesNotExist := by
    unfold interfacesGet; rw [hnone]
  refine ⟨?_, ?_, ?_, ?_, ?_⟩
  · unfold createManagementInterfaceRun
    rw [hget]; rfl
  · unfold createManagementInterfaceRun
    rw [hget]; rfl
  · unfold mgmtCount createManagementInterfaceRun
    rw [hget]
    simp [ScriptState.addLog, List.filter_append, hnone, List.filter]
  · unfold createManagementInterfaceRun
    rw [hget]; rfl
  · intro ips2
    have hget2 : interfacesGet { s with ipaddresses := ips2 } device "mgmt" =
        .error .objectDoesNotExist := hget
    unfold createManagementInterfaceRun
    rw [hget2]; rfl

/-- Witness for C3 at a device with no interfaces at all. -/
theorem C3_run_no_addip_witness :
    sW.interfaces.filter (fun i => i.deviceName == devW.name && i.name == "mgmt") = [] ∧
    (createManagementInterfaceRun availW devW false sW).1 =
      .ok ("Created mgmt on device " ++ devW.name) ∧
    (createManagementInterfaceRun availW devW false sW).2.interfaces =
      sW.interfaces ++ [⟨"mgmt", devW.name, true, IFACE_TYPE_1GE_FIXED⟩] ∧
    mgmtCount (createManagementInterfaceRun availW devW false sW).2 devW = 1 ∧
    (createManagementInterfaceRun availW devW false sW).2.ipaddresses = sW.ipaddresses :=
  ⟨rfl, (C3_run_no_addip availW devW sW rfl).1, (C3_run_no_addip availW devW sW rfl).2.1,
    (C3_run_no_addip availW devW sW rfl).2.2.1, (C3_run_no_addip availW devW sW rfl).2.2.2.1⟩

theorem addIp_noprefix_eq (available : ScriptState → PrefixRec → List Nat)
    (device : Device) (iface : InterfaceRec) (s : ScriptState)
    (hp : prefixGet s.prefixes device.siteSlug device.tenant = .error .objectDoesNotExist) :
    addIpToInterface available device iface s =
      (.ok ("Can\x27t find prefix for site " ++ device.siteSlug ++ " on device " ++
          device.name),
        s.addLog .failure none
          ("Can\x27t find prefix for site " ++ device.siteSlug ++ " on device " ++
            device.name)) := by
  unfold addIpToInterface
  rw [hp]

theorem addIp_fail_eq (available : ScriptState → PrefixRec → List Nat)
    (device : Device) (iface : InterfaceRec) (s : ScriptState) (p : PrefixRec)
    (zn : Option IPNet)
    (hp : prefixGet s.prefixes device.siteSlug device.tenant = .ok p)
    (hz : zerothNetFor device p = .ok zn)
    (hsel : selectIp zn (available s p) = none) :
    addIpToInterface available device iface s =
      (.ok ("Not enough IPs to allocate one on prefix " ++ p.net.str),
        (s.addLog .info none ("Selecting address from network " ++ p.net.str)).addLog
          .failure none ("Not enough IPs to allocate one on prefix " ++ p.net.str)) := by
  unfold addIpToInterface
  rw [hp]
  simp only [hz, hsel]

/-- C9: when no management prefix matches the device's site and tenant, or
when every yielded available address lies inside the reserved first /24
(or none is yielded at all, also on frack), _add_ip_to_interface logs a
failure and returns the failure message without creating or saving any
IPAddress row. -/
theorem C9_error_paths_ip_state_unchanged (available : ScriptState → PrefixRec → List Nat)
    (device : Device) (iface : InterfaceRec) (s : ScriptState) :
    (prefixGet s.prefixes device.siteSlug device.tenant = .error .objectDoesNotExist →
      (addIpToInterface available device iface s).2.ipaddresses = s.ipaddresses ∧
      (addIpToInterface available device iface s).1 =
        .ok ("Can\x27t find prefix for site " ++ device.siteSlug ++ " on device " ++
          device.name) ∧
      (addIpToInterface available device iface s).2.logs =
        s.logs ++ [⟨.failure, none,
          "Can\x27t find prefix for site " ++ device.siteSlug ++ " on device " ++
            device.name⟩]) ∧
    (∀ p, prefixGet s.prefixes device.siteSlug device.tenant = .ok p →
      isFrTech device = false → p.net.maskLen ≤ 24 →
      (available s p).find? (fun a => !(IPNet.memB ⟨p.net.base, 24⟩ a)) = none →
      (addIpToInterface available device iface s).2.ipaddresses = s.ipaddresses ∧
      (addIpToInterface available device iface s).1 =
        .ok ("Not enough IPs to allocate one on prefix " ++ p.net.str) ∧
      (addIpToInterface available device iface s).2.logs =
        s.logs ++ [⟨.info, none, "Selecting address from network " ++ p.net.str⟩,
          ⟨.failure, none, "Not enough IPs to allocate one on prefix " ++ p.net.str⟩]) ∧
    (∀ p, prefixGet s.prefixes device.siteSlug device.tenant = .ok p →
      isFrTech device = true → available s p = [] →
      (addIpToInterface available device iface s).2.ipaddresses = s.ipaddresses ∧
      (addIpToInterface available device iface s).1 =
        .ok ("Not enough IPs to allocate one on prefix " ++ p.net.str) ∧
      (addIpToInterface available device iface s).2.logs =
        s.logs ++ [⟨.info, none, "Selecting address from network " ++ p.net.str⟩,
          ⟨.failure, none, "Not enough IPs to allocate one on prefix " ++ p.net.str⟩]) := by
  refine ⟨?_, ?_, ?_⟩
  · intro hp
    rw [addIp_noprefix_eq available device iface s hp]
    simp [ScriptState.addLog]
  · intro p hp hfr h24 hfind
    have hz : zerothNetFor device p = .ok (some ⟨p.net.base, 24⟩) := by
      simp [zerothNetFor, hfr, IPNet.zeroth24, h24]
    have hsel : selectIp (some ⟨p.net.base, 24⟩) (available s p) = none := by
      rw [selectIp_some_eq]; exact hfind
    rw [addIp_fail_eq available device iface s p (some ⟨p.net.base, 24⟩) hp hz hsel]
    simp [ScriptState.addLog]
  · intro p hp hfr hav
    have hz : zerothNetFor device p = .ok none := by simp [zerothNetFor, hfr]
    have hsel : selectIp none (available s p) = none := by
      rw [selectIp_none_eq, hav]; rfl
    rw [addIp_fail_eq available device iface s p none hp hz hsel]
    simp [ScriptState.addLog]

/-- Witness for C9: a state with no prefixes for the lookup failure, and an
availability oracle whose only address 10.0.0.1 is inside the reserved /24
for the exhaustion failure. -/
theorem C9_error_paths_ip_state_unchanged_witness :
    prefixGet sE.prefixes devW.siteSlug devW.tenant = .error .objectDoesNotExist ∧
    (addIpToInterface availW devW ifW sE).2.ipaddresses = sE.ipaddresses ∧
    (addIpToInterface availW devW ifW sE).1 =
      .ok ("Can\x27t find prefix for site " ++ devW.siteSlug ++ " on device " ++
        devW.name) ∧
    prefixGet sW.prefixes devW.siteSlug devW.tenant = .ok pW ∧
    (availE sW pW).find? (fun a => !(IPNet.memB ⟨pW.net.base, 24⟩ a)) = none ∧
    (addIpToInterface availE devW ifW sW).2.ipaddresses = sW.ipaddresses ∧
    (addIpToInterface availE devW ifW sW).1 =
      .ok ("Not enough IPs to allocate one on prefix " ++ pW.net.str) :=
  ⟨rfl,
    ((C9_error_paths_ip_state_unchanged availW devW ifW sE).1 rfl).1,
    ((C9_error_paths_ip_state_unchanged availW devW ifW sE).1 rfl).2.1,
    rfl,
    by decide,
    ((C9_error_paths_ip_state_unchanged availE devW ifW sW).2.1 pW rfl rfl (by decide)
      (by decide)).1,
    ((C9_error_paths_ip_state_unchanged availE devW ifW sW).2.1 pW rfl rfl (by decide)
      (by decide)).2.1⟩

theorem mgmtCount_run (available : ScriptState → PrefixRec → List Nat)
    (device : Device) (addIp : Bool) (s : ScriptState)
    (h : mgmtCount s device ≤ 1) :
    mgmtCount (runState available device addIp s) device = 1 ∧
    (runState available device addIp s).interfaces =
      (if mgmtCount s device = 0 then
        s.interfaces ++ [⟨"mgmt", device.name, true, IFACE_TYPE_1GE_FIXED⟩]
      else s.interfaces) ∧
    (mgmtCount s device = 1 →
      ⟨.info, none, "mgmt already exists for device " ++ device.name⟩ ∈
        (runState available device addIp s).logs) := by
  rcases hl : s.interfaces.filter
      (fun i => i.deviceName == device.name && i.name == "mgmt") with _ | ⟨i, t⟩
  · -- no existing mgmt interface
    have hc0 : mgmtCount s device = 0 := by simp [mgmtCount, hl]
    have hget : interfacesGet s device "mgmt" = .error .objectDoesNotExist := by
      unfold interfacesGet; rw [hl]
    have hifaces : (runState available device addIp s).interfaces =
        s.interfaces ++ [⟨"mgmt", device.name, true, IFACE_TYPE_1GE_FIXED⟩] := by
      unfold runState createManagementInterfaceRun
      rw [hget]
      cases addIp with
      | true =>
        simp only [if_true]
        exact addIp_interfaces_eq available device _ _
      | false => rfl
    refine ⟨?_, ?_, ?_⟩
    · rw [mgmtCount, hifaces, List.filter_append, hl]
      simp [List.filter]
    · rw [hifaces, if_pos hc0]
    · intro h1
      rw [hc0] at h1
      exact absurd h1 (by decide)
  · -- exactly one existing mgmt interface
    have ht : t = [] := by
      have hlen := h
      rw [mgmtCount, hl] at hlen
      simpa using hlen
    subst ht
    have hc1 : mgmtCount s device = 1 := by simp [mgmtCount, hl]
    have hget : interfacesGet s device "mgmt" = .ok i := by
      unfold interfacesGet; rw [hl]
    have hs1 : runState available device addIp s =
        (createManagementInterfaceRun available device addIp s).2 := rfl
    have hifaces : (runState available device addIp s).interfaces = s.interfaces := by
      unfold runState createManagementInterfaceRun
      rw [hget]
      cases addIp with
      | true =>
        simp only [if_true]
        exact addIp_interfaces_eq available device _ _
      | false => rfl
    have hlog : ⟨.info, none, "mgmt already exists for device " ++ device.name⟩ ∈
        (runState available device addIp s).logs := by
      unfold runState createManagementInterfaceRun
      rw [hget]
      cases addIp with
      | true =>
        simp only [if_true]
        have hgrow := addIp_logs_grow available device i
          (s.addLog .info none ("mgmt already exists for device " ++ device.name))
        refine hgrow.subset ?_
        simp [ScriptState.addLog]
      | false => simp [ScriptState.addLog]
    refine ⟨?_, ?_, fun _ => hlog⟩
    · rw [mgmtCount, hifaces, hl]; rfl
    · rw [hifaces, if_neg (by omega)]

/-- C10: run is idempotent on interface creation: starting from a device
with at most one mgmt interface (the host's uniqueness constraint), one run
leaves exactly one interface named mgmt; when one already existed the
interface list is untouched and the already-exists line is logged; and any
positive number of runs still leaves exactly one. -/
theorem C10_run_idempotent_interfaces (available : ScriptState → PrefixRec → List Nat)
    (device : Device) (addIp : Bool) (s : ScriptState)
    (h : mgmtCount s device ≤ 1) :
    mgmtCount (runState available device addIp s) device = 1 ∧
    (mgmtCount s device = 1 →
      (runState available device addIp s).interfaces = s.interfaces ∧
      ⟨.info, none, "mgmt already exists for device " ++ device.name⟩ ∈
        (runState available device addIp s).logs) ∧
    (∀ n, 1 ≤ n →
      mgmtCount ((runState available device addIp)^[n] s) device = 1) := by
  obtain ⟨hcount, hifaces, hlog⟩ := mgmtCount_run available device addIp s h
  refine ⟨hcount, fun h1 => ⟨by rw [hifaces, if_neg (by omega)], hlog h1⟩, ?_⟩
  intro n hn
  induction n with
  | zero => exact absurd hn (by omega)
  | succ k ih =>
    rw [Function.iterate_succ_apply']
    rcases Nat.eq_zero_or_pos k with hk | hk
    · subst hk
      simpa using hcount
    · have hik := ih (by omega)
      exact (mgmtCount_run available device addIp _ (le_of_eq hik)).1

/-- Witness for C10 at a device with no interfaces: one run creates the
mgmt interface, three runs still leave exactly one. -/
theorem C10_run_idempotent_interfaces_witness :
    mgmtCount sW devW ≤ 1 ∧
    mgmtCount (runState availW devW false sW) devW = 1 ∧
    mgmtCount ((runState availW devW false)^[3] sW) devW = 1 :=
  ⟨by decide,
    (C10_run_idempotent_interfaces availW devW false sW (by decide)).1,
    (C10_run_idempotent_interfaces availW devW false sW (by decide)).2.2 3 (by decide)⟩

/-- C4: no report test method changes any NetBox state: every embedded test
method returns its input state unchanged, only producing log entries, while
the CreateManagementInterface script does mutate state (shown at a concrete
input). -/
theorem C4_reports_read_only :
    (∀ s, (Coherence.test_malformed_asset_tags s).1 = s) ∧
    (∀ today s, (Coherence.test_purchase_date today s).1 = s) ∧
    (∀ s, (Coherence.test_duplicate_serials s).1 = s) ∧
    (∀ s, (Coherence.test_serials s).1 = s) ∧
    (∀ s, (Coherence.test_ticket s).1 = s) ∧
    (∀ s, (Coherence.test_offline_rack s).1 = s) ∧
    (∀ s, (Coherence.test_online_rack s).1 = s) ∧
    (∀ today s, (OldHardwareReport.test_hardware_age today s).1 = s) ∧
    (∀ ld s, (LibreNMSRep.test_nb_net_in_librenms ld s).1 = s) ∧
    (∀ ld s, (LibreNMSRep.test_nb_inventory_in_librenms ld s).1 = s) ∧
    (∀ ld s, (LibreNMSRep.test_librenms_in_nb ld s).1 = s) ∧
    (∀ ld s, (LibreNMSRep.test_librenms_vendor_model ld s).1 = s) ∧
    (∀ facts s, (PuppetDBRep.test_puppetdb_in_netbox facts s).1 = s) ∧
    (∀ facts s, (PuppetDBRep.test_netbox_in_puppetdb facts s).1 = s) ∧
    (∀ serials s, (PuppetDBRep.test_puppetdb_serials serials s).1 = s) ∧
    (∀ models s, (PuppetDBRep.test_puppetdb_models models s).1 = s) ∧
    (∀ facts s, (PuppetDBRep.test_puppetdb_vms_in_netbox facts s).1 = s) ∧
    (∀ facts s, (PuppetDBRep.test_netbox_vms_in_puppetdb facts s).1 = s) ∧
    (∀ serials s, (PuppetdbSerials.test_puppetdb_in_netbox serials s).1 = s) ∧
    (∀ serials s, (PuppetdbSerials.test_netbox_in_puppetdb serials s).1 = s) ∧
    (∀ serials s, (PuppetdbSerials.test_puppetdb_serials serials s).1 = s) ∧
    (∀ serials s, (PuppetdbSerials.test_puppetdb_vms_in_netbox serials s).1 = s) ∧
    (∀ ib s, (Juniper.test_missing_device_from_installed_base ib s).1 = s) ∧
    (∀ ib s, (Juniper.test_missing_inventory_from_installed_base ib s).1 = s) ∧
    (∀ ib s, (Juniper.test_consistency ib s).1 = s) ∧
    (∀ assets s, (Accounting.test_field_match assets s).1 = s) ∧
    (∀ today assets s, (Accounting.test_missing_assets_from_accounting today assets s).1 = s) ∧
    (∀ s, (Cables.test_console_port_termination_names s).1 = s) ∧
    (∀ s, (Cables.test_console_server_port_termination_names s).1 = s) ∧
    (∀ s, (Cables.test_power_port_termination_names s).1 = s) ∧
    (∀ s, (Cables.test_power_outlet_termination_names s).1 = s) ∧
    (∀ s, (Cables.test_interface_termination_names s).1 = s) ∧
    (∀ s, (Cables.test_duplicate_cable_label s).1 = s) ∧
    (∀ s, (Cables.test_blank_cable_label s).1 = s) ∧
    (∀ s, (ManagementRoot.test_management_console s).1 = s) ∧
    (∀ s, (ManagementReports.test_management_console s).1 = s) ∧
    (createManagementInterfaceRun availW devW false sW).2 ≠ sW :=
  ⟨fun _ => rfl, fun _ _ => rfl, fun _ => rfl, fun _ => rfl, fun _ => rfl, fun _ => rfl,
    fun _ => rfl, fun _ _ => rfl, fun _ _ => rfl, fun _ _ => rfl, fun _ _ => rfl,
    fun _ _ => rfl, fun _ _ => rfl, fun _ _ => rfl, fun _ _ => rfl, fun _ _ => rfl,
    fun _ _ => rfl, fun _ _ => rfl, fun _ _ => rfl, fun _ _ => rfl, fun _ _ => rfl,
    fun _ _ => rfl, fun _ _ => rfl, fun _ _ => rfl, fun _ _ => rfl, fun _ _ => rfl,
    fun _ _ _ => rfl, fun _ => rfl, fun _ => rfl, fun _ => rfl, fun _ => rfl,
    fun _ => rfl, fun _ => rfl, fun _ => rfl, fun _ => rfl, fun _ => rfl, by decide⟩

/-! ## Lemmas about per-record accounting in the report loops -/

theorem foldl_step_spec {α : Type} (ok : α → Bool) (fl : α → Option LogEntry)
    (step : (Nat × List LogEntry) → α → Nat × List LogEntry)
    (hstep : ∀ acc a, step acc a =
      (acc.1 + (if ok a then 1 else 0), acc.2 ++ (fl a).toList))
    (l : List α) (n : Nat) (logs : List LogEntry) :
    (l.foldl step (n, logs)).1 = n + l.countP ok ∧
    (l.foldl step (n, logs)).2 = logs ++ l.filterMap fl := by
  induction l generalizing n logs with
  | nil => simp
  | cons a t ih =>
    rw [List.foldl_cons, hstep]
    obtain ⟨h1, h2⟩ := ih (n + if ok a then 1 else 0) (logs ++ (fl a).toList)
    constructor
    · rw [h1, List.countP_cons]
      by_cases h : ok a <;> simp [h] <;> try omega
    · rw [h2, List.filterMap_cons]
      cases hfa : fl a <;> simp [hfa]

theorem count_filterMap_partition {α : Type} (ok : α → Bool) (fl : α → Option LogEntry)
    (h : ∀ a, (fl a).isSome = !ok a) (l : List α) :
    l.length = l.countP ok + (l.filterMap fl).length := by
  induction l with
  | nil => rfl
  | cons a t ih =>
    rw [List.length_cons, List.countP_cons, List.filterMap_cons]
    cases hfa : fl a with
    | none =>
      have hok : ok a = true := by
        have h2 := h a
        rw [hfa] at h2
        cases hoa : ok a
        · rw [hoa] at h2; simp at h2
        · rfl
      simp [hok]
      omega
    | some b =>
      have hok : ok a = false := by
        have h2 := h a
        rw [hfa] at h2
        cases hoa : ok a
        · rfl
        · rw [hoa] at h2; simp at h2
      simp [hok]
      omega

theorem assetTagStep_spec (acc : Nat × List LogEntry) (d : Device) :
    Coherence.assetTagStep acc d =
      (acc.1 + (if Coherence.assetTagOk d then 1 else 0),
        acc.2 ++ (Coherence.assetTagFailEntry d).toList) := by
  rcases hd : d.assetTag with _ | tag
  · simp [Coherence.assetTagStep, Coherence.assetTagOk, Coherence.assetTagFailEntry, hd]
  · by_cases hm : assetTagMatch tag <;>
      simp [Coherence.assetTagStep, Coherence.assetTagOk, Coherence.assetTagFailEntry,
        hd, hm]

theorem assetTagFailEntry_isSome (d : Device) :
    (Coherence.assetTagFailEntry d).isSome = !Coherence.assetTagOk d := by
  rcases hd : d.assetTag with _ | tag
  · simp [Coherence.assetTagFailEntry, Coherence.assetTagOk, hd]
  · by_cases hm : assetTagMatch tag <;>
      simp [Coherence.assetTagFailEntry, Coherence.assetTagOk, hd, hm]

theorem vmStep_spec (ld : LibreNMSRep.LibreNMSData) (acc : Nat × List LogEntry)
    (d : Device) :
    LibreNMSRep.vmStep ld acc d =
      (acc.1 + (if LibreNMSRep.vmOutcome ld d == .counted then 1 else 0),
        acc.2 ++ (LibreNMSRep.vmLogEntry ld d).toList) := by
  cases ho : LibreNMSRep.vmOutcome ld d <;>
    simp [LibreNMSRep.vmStep, LibreNMSRep.vmLogEntry, ho]

theorem vm_partition (ld : LibreNMSRep.LibreNMSData) (l : List Device) :
    l.length = l.countP (fun d => LibreNMSRep.vmOutcome ld d == .counted) +
      (l.filterMap (LibreNMSRep.vmLogEntry ld)).length +
      l.countP (fun d => LibreNMSRep.vmOutcome ld d == .skipped) := by
  induction l with
  | nil => rfl
  | cons d t ih =>
    rw [List.length_cons, List.countP_cons, List.countP_cons, List.filterMap_cons]
    cases ho : LibreNMSRep.vmOutcome ld d <;>
      simp [LibreNMSRep.vmLogEntry, ho] <;> omega

theorem vm_not_skipped (ld : LibreNMSRep.LibreNMSData) (d : Device)
    (h1 : (LibreNMSRep.serialLookup ld.devices d.serial).isSome = true ∨
      (LibreNMSRep.serialLookup ld.inventory d.serial).isSome = true)
    (h2 : LibreNMSRep.EXCLUDE_SITES.contains d.siteSlug = false) :
    LibreNMSRep.vmOutcome ld d ≠ .skipped := by
  unfold LibreNMSRep.vmOutcome
  rcases hd : LibreNMSRep.serialLookup ld.devices d.serial with _ | ldev
  · rcases hi : LibreNMSRep.serialLookup ld.inventory d.serial with _ | inv
    · rw [hd, hi] at h1
      simp at h1
    · simp only [h2, Bool.not_false, if_true]
      split <;> simp
  · simp only [h2, Bool.not_false, if_true]
    split <;> simp

/-- C5 counterexample: an active asw device whose serial is in neither
LibreNMS table sits in test_librenms_vendor_model's filtered set, yet the
test emits no log entry for it and reports zero successes: the record is
silently skipped. -/
theorem C5_per_record_accounting_counterexample :
    LibreNMSRep.vendorModelFilter cxState = [cxDevice] ∧
    (LibreNMSRep.test_librenms_vendor_model cxLd cxState).2 =
      [⟨.success, none, "0 LibreNMS hardware and manufacturer matches in Netbox"⟩] ∧
    (LibreNMSRep.test_librenms_vendor_model cxLd cxState).2.filter
      (fun e => e.obj == some cxDevice.name) = [] := by
  refine ⟨rfl, ?_, ?_⟩ <;> rfl

/-- C5 amended: in Coherence.test_malformed_asset_tags every record of the
filtered set is either failure-logged or counted in the reported success
total, and likewise in test_offline_rack (one failure per record); in
LibreNMS.test_librenms_vendor_model the same accounting holds exactly for
the devices whose serial is in one of the LibreNMS tables and whose site is
not excluded, while the remaining devices are skipped with no log or
count. -/
theorem C5_amended_per_record_accounting :
    (∀ s,
      (Coherence.test_malformed_asset_tags s).2 =
        (Coherence.getDevicesQuery s).filterMap Coherence.assetTagFailEntry ++
          [⟨.success, none,
            toString ((Coherence.getDevicesQuery s).countP Coherence.assetTagOk) ++
              " correctly formatted asset tags"⟩] ∧
      (Coherence.getDevicesQuery s).length =
        (Coherence.getDevicesQuery s).countP Coherence.assetTagOk +
          ((Coherence.getDevicesQuery s).filterMap Coherence.assetTagFailEntry).length) ∧
    (∀ s, (Coherence.test_offline_rack s).2 =
      (Coherence.offlineRackSet s).map (fun d =>
        ⟨.failure, some d.name,
          "rack defined for status Offline device: " ++ d.siteSlug ++ "-" ++
            d.rack.getD ""⟩)) ∧
    (∀ ld s,
      (LibreNMSRep.test_librenms_vendor_model ld s).2 =
        (LibreNMSRep.vendorModelFilter s).filterMap (LibreNMSRep.vmLogEntry ld) ++
          [⟨.success, none,
            toString ((LibreNMSRep.vendorModelFilter s).countP
              (fun d => LibreNMSRep.vmOutcome ld d == .counted)) ++
              " LibreNMS hardware and manufacturer matches in Netbox"⟩] ∧
      (LibreNMSRep.vendorModelFilter s).length =
        (LibreNMSRep.vendorModelFilter s).countP
          (fun d => LibreNMSRep.vmOutcome ld d == .counted) +
        ((LibreNMSRep.vendorModelFilter s).filterMap (LibreNMSRep.vmLogEntry ld)).length +
        (LibreNMSRep.vendorModelFilter s).countP
          (fun d => LibreNMSRep.vmOutcome ld d == .skipped)) ∧
    (∀ ld (d : Device),
      ((LibreNMSRep.serialLookup ld.devices d.serial).isSome = true ∨
        (LibreNMSRep.serialLookup ld.inventory d.serial).isSome = true) →
      LibreNMSRep.EXCLUDE_SITES.contains d.siteSlug = false →
      LibreNMSRep.vmOutcome ld d ≠ .skipped) := by
  refine ⟨?_, fun s => rfl, ?_, vm_not_skipped⟩
  · intro s
    obtain ⟨h1, h2⟩ := foldl_step_spec Coherence.assetTagOk Coherence.assetTagFailEntry
      Coherence.assetTagStep assetTagStep_spec (Coherence.getDevicesQuery s) 0 []
    have htest : (Coherence.test_malformed_asset_tags s).2 =
        ((Coherence.getDevicesQuery s).foldl Coherence.assetTagStep (0, [])).2 ++
          [⟨.success, none,
            toString ((Coherence.getDevicesQuery s).foldl Coherence.assetTagStep
              (0, [])).1 ++ " correctly formatted asset tags"⟩] := rfl
    constructor
    · rw [htest, h1, h2]
      simp
    · exact count_filterMap_partition Coherence.assetTagOk Coherence.assetTagFailEntry
        assetTagFailEntry_isSome (Coherence.getDevicesQuery s)
  · intro ld s
    obtain ⟨h1, h2⟩ := foldl_step_spec
      (fun d => LibreNMSRep.vmOutcome ld d == .counted) (LibreNMSRep.vmLogEntry ld)
      (LibreNMSRep.vmStep ld) (vmStep_spec ld) (LibreNMSRep.vendorModelFilter s) 0 []
    have htest : (LibreNMSRep.test_librenms_vendor_model ld s).2 =
        ((LibreNMSRep.vendorModelFilter s).foldl (LibreNMSRep.vmStep ld) (0, [])).2 ++
          [⟨.success, none,
            toString ((LibreNMSRep.vendorModelFilter s).foldl (LibreNMSRep.vmStep ld)
              (0, [])).1 ++ " LibreNMS hardware and manufacturer matches in Netbox"⟩] := rfl
    constructor
    · rw [htest, h1, h2]
      simp
    · exact vm_partition ld (LibreNMSRep.vendorModelFilter s)

/-- C6 counterexample: the coherence report module opens no external data
source at all, refuting one-external-source-per-script. -/
theorem C6_one_external_source_counterexample :
    ("coherence" ∈ reportModules) ∧
    externalSourcesOf "coherence" = [] ∧
    (externalSourcesOf "coherence").length ≠ 1 :=
  ⟨by decide, rfl, by decide⟩

/-- C6 amended: every report module loads at most one external data source;
the five reconciliation reports (accounting, juniper, librenms, puppetdb,
puppetdbserials) load exactly one, while coherence, cables, the two
management reports and oldhardware load none, checking NetBox against
itself. -/
theorem C6_amended_external_sources :
    (∀ m ∈ reportModules, (externalSourcesOf m).length ≤ 1) ∧
    (externalSourcesOf "accounting").length = 1 ∧
    (externalSourcesOf "juniper").length = 1 ∧
    (externalSourcesOf "librenms").length = 1 ∧
    (externalSourcesOf "puppetdb").length = 1 ∧
    (externalSourcesOf "puppetdbserials").length = 1 ∧
    (externalSourcesOf "coherence").length = 0 ∧
    (externalSourcesOf "cables").length = 0 ∧
    (externalSourcesOf "management").length = 0 ∧
    (externalSourcesOf "management-report").length = 0 ∧
    (externalSourcesOf "oldhardware").length = 0 :=
  ⟨by decide, rfl, rfl, rfl, rfl, rfl, rfl, rfl, rfl, rfl, rfl⟩

theorem deviceBranchMatch_iff (d : Device) (ldev : LibreNMSRep.LibreDevice) :
    LibreNMSRep.deviceBranchMatch d ldev = true ↔
      ((strIn (strLower d.manufacturerName) ldev.hardware = true ∨
        strIn (strLower d.manufacturerName) ldev.description = true) ∧
       (strIn (strLower d.model) ldev.hardware = true ∨
        strIn (strLower d.model) ldev.description = true)) := by
  unfold LibreNMSRep.deviceBranchMatch LibreNMSRep.nbVendorString LibreNMSRep.nbModelString
  simp [Bool.and_eq_true, Bool.or_eq_true]

theorem inventoryBranchMatch_iff (d : Device) (inv : LibreNMSRep.LibreInventory) :
    LibreNMSRep.inventoryBranchMatch d inv = true ↔
      (strIn (strLower d.manufacturerName ++ " " ++ strLower d.model)
          (inv.vendor ++ " " ++ inv.model) = true ∨
       (strIn (strLower d.manufacturerName) (inv.vendor ++ " " ++ inv.model) = true ∧
        strIn (strLower d.model) (inv.vendor ++ " " ++ inv.model) = true) ∨
       strIn ((LibreNMSRep.MODEL_EQUIVS.lookup
           (strLower d.manufacturerName ++ " " ++ strLower d.model)).getD "BADMATCH")
         (inv.vendor ++ " " ++ inv.model) = true) := by
  unfold LibreNMSRep.inventoryBranchMatch LibreNMSRep.nbVendorModelString
    LibreNMSRep.nbVendorString LibreNMSRep.nbModelString
  simp [Bool.and_eq_true, Bool.or_eq_true, or_assoc]

theorem vmOutcome_counted_devices (ld : LibreNMSRep.LibreNMSData) (d : Device)
    (ldev : LibreNMSRep.LibreDevice)
    (hd : LibreNMSRep.serialLookup ld.devices d.serial = some ldev) :
    LibreNMSRep.vmOutcome ld d = .counted ↔
      LibreNMSRep.deviceBranchMatch d ldev = true := by
  unfold LibreNMSRep.vmOutcome
  rw [hd]
  cases hm : LibreNMSRep.deviceBranchMatch d ldev
  · simp only [hm, Bool.false_eq_true, if_false, iff_false]
    split <;> simp
  · simp [hm]

theorem vmOutcome_counted_inventory (ld : LibreNMSRep.LibreNMSData) (d : Device)
    (inv : LibreNMSRep.LibreInventory)
    (hd : LibreNMSRep.serialLookup ld.devices d.serial = none)
    (hi : LibreNMSRep.serialLookup ld.inventory d.serial = some inv) :
    LibreNMSRep.vmOutcome ld d = .counted ↔
      LibreNMSRep.inventoryBranchMatch d inv = true := by
  unfold LibreNMSRep.vmOutcome
  rw [hd, hi]
  cases hm : LibreNMSRep.inventoryBranchMatch d inv
  · simp only [hm, Bool.false_eq_true, if_false, iff_false]
    split <;> simp
  · simp [hm]

/-- C7: in test_librenms_vendor_model the NetBox manufacturer and model
strings are lower-cased, and a device whose serial is in the LibreNMS
devices table counts as a match exactly when the vendor string occurs in
the hardware or description field and the model string occurs in the
hardware or description field (substring, not equality); a device found
only in the inventory table matches exactly when the joined vendor-model
string, the vendor and model separately, or the MODEL_EQUIVS replacement
occurs in the concatenated inventory vendor-and-model string. -/
theorem C7_vendor_model_matching (ld : LibreNMSRep.LibreNMSData) (d : Device) :
    (∀ ldev, LibreNMSRep.serialLookup ld.devices d.serial = some ldev →
      (LibreNMSRep.vmOutcome ld d = .counted ↔
        ((strIn (strLower d.manufacturerName) ldev.hardware = true ∨
          strIn (strLower d.manufacturerName) ldev.description = true) ∧
         (strIn (strLower d.model) ldev.hardware = true ∨
          strIn (strLower d.model) ldev.description = true)))) ∧
    (∀ inv, LibreNMSRep.serialLookup ld.devices d.serial = none →
      LibreNMSRep.serialLookup ld.inventory d.serial = some inv →
      (LibreNMSRep.vmOutcome ld d = .counted ↔
        (strIn (strLower d.manufacturerName ++ " " ++ strLower d.model)
            (inv.vendor ++ " " ++ inv.model) = true ∨
         (strIn (strLower d.manufacturerName) (inv.vendor ++ " " ++ inv.model) = true ∧
          strIn (strLower d.model) (inv.vendor ++ " " ++ inv.model) = true) ∨
         strIn ((LibreNMSRep.MODEL_EQUIVS.lookup
             (strLower d.manufacturerName ++ " " ++ strLower d.model)).getD "BADMATCH")
           (inv.vendor ++ " " ++ inv.model) = true))) := by
  constructor
  · intro ldev hd
    rw [vmOutcome_counted_devices ld d ldev hd, deviceBranchMatch_iff]
  · intro inv hd hi
    rw [vmOutcome_counted_inventory ld d inv hd hi, inventoryBranchMatch_iff]

/-- Witness for C7: the concrete Juniper switch matches its LibreNMS
devices-table row by lower-cased substring comparison and so is counted. -/
theorem C7_vendor_model_matching_witness :
    LibreNMSRep.serialLookup c7Ld.devices cxDevice.serial = some c7Row ∧
    ((strIn (strLower cxDevice.manufacturerName) c7Row.hardware = true ∨
      strIn (strLower cxDevice.manufacturerName) c7Row.description = true) ∧
     (strIn (strLower cxDevice.model) c7Row.hardware = true ∨
      strIn (strLower cxDevice.model) c7Row.description = true)) ∧
    LibreNMSRep.vmOutcome c7Ld cxDevice = .counted :=
  ⟨rfl, by decide,
    ((C7_vendor_model_matching c7Ld cxDevice).1 c7Row rfl).mpr (by decide)⟩

/-- C8: _get_puppetdb_fact performs exactly one GET with no retry (one url
requested, one response consumed from the trace whatever the status),
raises exactly when the status code is not 200, and otherwise returns the
decoded body; the puppetdbserials constructor fetch behaves the same
way. -/
theorem C8_single_get_raise_on_non_200 (cfgUrl fact : String) (r : HttpResponse)
    (rest : List HttpResponse) :
    ((PuppetDBRep.getPuppetdbFact cfgUrl fact (r :: rest)).2.1.length = 1 ∧
     (PuppetDBRep.getPuppetdbFact cfgUrl fact (r :: rest)).2.2 = rest ∧
     ((∃ e, (PuppetDBRep.getPuppetdbFact cfgUrl fact (r :: rest)).1 = .error e) ↔
       r.statusCode ≠ 200) ∧
     (r.statusCode = 200 →
       (PuppetDBRep.getPuppetdbFact cfgUrl fact (r :: rest)).1 = .ok r.facts)) ∧
    ((PuppetdbSerials.initFetch cfgUrl (r :: rest)).2.1.length = 1 ∧
     (PuppetdbSerials.initFetch cfgUrl (r :: rest)).2.2 = rest ∧
     ((∃ e, (PuppetdbSerials.initFetch cfgUrl (r :: rest)).1 = .error e) ↔
       r.statusCode ≠ 200) ∧
     (r.statusCode = 200 →
       (PuppetdbSerials.initFetch cfgUrl (r :: rest)).1 = .ok r.facts)) := by
  unfold PuppetDBRep.getPuppetdbFact PuppetdbSerials.initFetch
  by_cases h : r.statusCode = 200 <;> simp [h]

/-- Witness for C8: a 200 response hands back its body with the trace
advanced by one; a 500 response raises. -/
theorem C8_single_get_raise_on_non_200_witness :
    (PuppetDBRep.getPuppetdbFact "http://pdb" "serialnumber"
      [⟨200, "", []⟩, ⟨200, "", []⟩]).1 = .ok [] ∧
    (PuppetDBRep.getPuppetdbFact "http://pdb" "serialnumber"
      [⟨200, "", []⟩, ⟨200, "", []⟩]).2.2 = [⟨200, "", []⟩] ∧
    (∃ e, (PuppetdbSerials.initFetch "http://pdb" [⟨500, "oops", []⟩]).1 = .error e) :=
  ⟨((C8_single_get_raise_on_non_200 "http://pdb" "serialnumber" ⟨200, "", []⟩
      [⟨200, "", []⟩]).1.2.2.2 rfl),
   (C8_single_get_raise_on_non_200 "http://pdb" "serialnumber" ⟨200, "", []⟩
      [⟨200, "", []⟩]).1.2.1,
   ((C8_single_get_raise_on_non_200 "http://pdb" "x" ⟨500, "oops", []⟩ []).2.2.2.1).mpr
     (by decide)⟩
